import Mathlib

/-!
Verification development for the ADA-compliance-detection rule engine.

The Python sources are shallowly embedded: pure pixel statistics and the
threshold decision rules are translated directly; external collaborators
(cv2 edge detection, Hough transform, contour extraction, numpy std, the
JSON parser of the standard library, the remote model) are supplied as
oracle inputs to the functions that consume their output, exactly at the
call sites where the Python code invokes them.  Python floats are modelled
as exact rationals (reals where the code applies `arctan`); the only
divergences this introduces are at exact representation/tie boundaries
that no theorem below relies on.
-/

set_option maxHeartbeats 1000000

namespace ADA

/-- Rounding to `d` decimal digits on the exact value, modelling Python's
`round(x, d)`.  Python rounds half to even on floats; the two agree except
at exact half-way ties, which no statement below depends on. -/
def roundQ (d : ℕ) (x : ℚ) : ℚ := ((round (x * 10 ^ d) : ℤ) : ℚ) / 10 ^ d

/-- A value stored in a violation record's `measurements` dict: the Python
analyzers store either a number or a string there. -/
inductive MeasVal where
  | num (q : ℚ)
  | str (s : String)
  deriving DecidableEq

/-- `ViolationResult` (base_analyzer.py): the shared violation-record
schema all analyzers emit into.  The free-text `description` and
`recommendation` fields are presentation-only strings and are not
modelled. -/
structure ViolationResult where
  type_ : String
  severity : String
  ada_code : String
  confidence : ℚ
  detection_method : String
  measurements : List (String × MeasVal)
  deriving DecidableEq

/-- A detector-produced detection record, as consumed by the analyzers and
the aggregator: category label and (x, y, w, h) bounding box. -/
structure Detection where
  class_name : String
  bbox : ℤ × ℤ × ℤ × ℤ
  deriving DecidableEq

/-- Severity lies in the three-value enum. -/
def severityOk (s : String) : Prop :=
  s = "Critical" ∨ s = "Moderate" ∨ s = "Minor"

/-- The record-level invariant claimed by the spec: enum severity and
confidence in [0, 1]. -/
def resultOk (v : ViolationResult) : Prop :=
  severityOk v.severity ∧ 0 ≤ v.confidence ∧ v.confidence ≤ 1

instance : DecidablePred severityOk := fun s => by unfold severityOk; infer_instance

instance : DecidablePred resultOk := fun v => by unfold resultOk; infer_instance

/-- Python `str.lower()`, restricted to the ASCII labels the detector
produces. -/
def lowerStr (s : String) : String := String.mk (s.data.map Char.toLower)

namespace DoorAnalyzer

/-- `self.narrow_door_ratio = 2.5` (door_analyzer.py). -/
def narrow_door_rat : ℚ := 5 / 2

/-- `self.very_narrow_ratio = 3.0` (door_analyzer.py). -/
def very_narrow_rat : ℚ := 3

/-- `DoorAnalyzer._check_width`: estimates door width from the region's
height/width aspect ratio and flags "Door Width" past the two thresholds. -/
def check_width (height width : ℕ) : Option ViolationResult :=
  let aspect_rat : ℚ := if 0 < width then (height : ℚ) / (width : ℚ) else 0
  if very_narrow_rat < aspect_rat then
    some { type_ := "Door Width", severity := "Critical", ada_code := "404.2.3",
           confidence := 7/10, detection_method := "rule_based_cv",
           measurements := [("aspect_ratio", MeasVal.num (roundQ 2 aspect_rat)),
                            ("estimated_width_inches", MeasVal.num 28),
                            ("required_width_inches", MeasVal.num 32)] }
  else if narrow_door_rat < aspect_rat then
    some { type_ := "Door Width", severity := "Critical", ada_code := "404.2.3",
           confidence := 3/5, detection_method := "rule_based_cv",
           measurements := [("aspect_ratio", MeasVal.num (roundQ 2 aspect_rat)),
                            ("estimated_width_inches", MeasVal.num 30),
                            ("required_width_inches", MeasVal.num 32)] }
  else none

/-- Number of edge pixels of row `i` over columns `< width`: models
`np.sum(row > 0)` on the Canny edge map `e` (an external cv2 output,
supplied as an oracle: `e i j` says whether pixel (i, j) is an edge). -/
def rowEdgeCount (width : ℕ) (e : ℕ → ℕ → Bool) (i : ℕ) : ℕ :=
  ((List.range width).filter (fun j => e i j)).length

/-- `edge_density` in `_check_threshold`: the fraction of rows in the
bottom 15% of the Canny edge map whose edge-pixel count exceeds 30% of
the width.  `int(height * 0.85)` is modelled as `85 * height / 100`
(exact floor). -/
def edge_density (height width : ℕ) (e : ℕ → ℕ → Bool) : ℚ :=
  let bottomStart : ℕ := 85 * height / 100
  let rows : ℕ := height - bottomStart
  let horizontal_edges : ℕ :=
    ((List.range rows).filter
      (fun r => (3 : ℚ) * width / 10 < (rowEdgeCount width e (bottomStart + r) : ℚ))).length
  if 0 < rows then (horizontal_edges : ℚ) / (rows : ℚ) else 0

/-- `DoorAnalyzer._check_threshold`: flags "Door Threshold" when the
horizontal-edge row density at the door base exceeds 0.3. -/
def check_threshold (height width : ℕ) (e : ℕ → ℕ → Bool) : Option ViolationResult :=
  let edge_density : ℚ := edge_density height width e
  if 3/10 < edge_density then
    some { type_ := "Door Threshold", severity := "Moderate", ada_code := "404.2.5",
           confidence := min (11/20 + edge_density * (1/5)) (3/4),
           detection_method := "rule_based_cv",
           measurements := [("edge_density", MeasVal.num (roundQ 2 edge_density)),
                            ("max_threshold_height_inches", MeasVal.num (1/2))] }
  else none

end DoorAnalyzer

/-- External contour data consumed by `DoorAnalyzer._check_hardware`: the
`cv2.contourArea` result and the `cv2.boundingRect` width and height. -/
structure Contour where
  area : ℚ
  rectW : ℕ
  rectH : ℕ
  deriving DecidableEq

namespace DoorAnalyzer

/-- `hardware_contours` in `_check_hardware`: the compact contours of
bounded area among the external cv2 contours of the middle band. -/
def hardware_contours (height width : ℕ) (contours : List Contour) : List Contour :=
  let min_area : ℚ := (width : ℚ) * (height : ℚ) * (1/500)
  let max_area : ℚ := (width : ℚ) * (height : ℚ) * (1/20)
  contours.filter (fun c =>
    min_area < c.area ∧ c.area < max_area ∧
      (if 0 < min c.rectW c.rectH then
        ((max c.rectW c.rectH : ℕ) : ℚ) / ((min c.rectW c.rectH : ℕ) : ℚ)
       else 0) < 3)

/-- `DoorAnalyzer._check_hardware`: flags "Door Hardware" when fewer
than two hardware-like contours are found. -/
def check_hardware (height width : ℕ) (contours : List Contour) : Option ViolationResult :=
  let hardware_contours := hardware_contours height width contours
  if hardware_contours.length < 2 then
    some { type_ := "Door Hardware", severity := "Minor", ada_code := "404.2.7",
           confidence := 1/2, detection_method := "rule_based_cv",
           measurements := [("hardware_features_detected",
                              MeasVal.num (hardware_contours.length : ℚ))] }
  else none

/-- `DoorAnalyzer.analyze`: the empty-region guard (`image.size == 0`,
i.e. `height * width = 0` for an h x w x 3 array), then the three checks
appended in source order. -/
def analyze (height width : ℕ) (e : ℕ → ℕ → Bool) (contours : List Contour) :
    List ViolationResult :=
  if height * width = 0 then []
  else (check_width height width).toList ++ (check_threshold height width e).toList
       ++ (check_hardware height width contours).toList

end DoorAnalyzer

namespace ParkingAnalyzer

/-- `cv2.inRange(hsv, [90,80,50], [135,255,255])`: the blue mask test on
one HSV pixel (inclusive bounds, as cv2.inRange is). -/
def isBlue (p : ℕ × ℕ × ℕ) : Bool :=
  90 ≤ p.1 ∧ p.1 ≤ 135 ∧ 80 ≤ p.2.1 ∧ p.2.1 ≤ 255 ∧ 50 ≤ p.2.2 ∧ p.2.2 ≤ 255

/-- `cv2.inRange(hsv, [0,0,180], [180,50,255])`: the white mask test on
one HSV pixel. -/
def isWhite (p : ℕ × ℕ × ℕ) : Bool :=
  p.1 ≤ 180 ∧ p.2.1 ≤ 50 ∧ 180 ≤ p.2.2 ∧ p.2.2 ≤ 255

/-- Count of pixels of the h x w region (in HSV space, the external
`cv2.cvtColor` output `pix`) satisfying `pred`: models
`np.sum(mask > 0)`. -/
def countPix (height width : ℕ) (pix : ℕ → ℕ → ℕ × ℕ × ℕ)
    (pred : ℕ × ℕ × ℕ → Bool) : ℕ :=
  ((List.range height).map
    (fun i => ((List.range width).filter (fun j => pred (pix i j))).length)).sum

/-- `self.min_blue_percentage = 0.05`. -/
def min_blue_percentage : ℚ := 1/20

/-- `self.min_white_percentage = 0.02`. -/
def min_white_percentage : ℚ := 1/50

/-- `blue_percentage` in `_check_signage`: the blue-mask pixel count over
the mask size (the region's pixel count). -/
def blue_percentage (height width : ℕ) (pix : ℕ → ℕ → ℕ × ℕ × ℕ) : ℚ :=
  ((countPix height width pix isBlue : ℕ) : ℚ) / ((height * width : ℕ) : ℚ)

/-- `white_percentage` in `_check_signage`. -/
def white_percentage (height width : ℕ) (pix : ℕ → ℕ → ℕ × ℕ × ℕ) : ℚ :=
  ((countPix height width pix isWhite : ℕ) : ℚ) / ((height * width : ℕ) : ℚ)

/-- `ParkingAnalyzer._check_signage`: blue/white pixel fractions against
the two thresholds; no blue yields "Parking Signage", blue without white
yields "Wheelchair Symbol". -/
def check_signage (height width : ℕ) (pix : ℕ → ℕ → ℕ × ℕ × ℕ) :
    Option ViolationResult :=
  let blue_percentage : ℚ := blue_percentage height width pix
  let white_percentage : ℚ := white_percentage height width pix
  if ¬ (min_blue_percentage ≤ blue_percentage) then
    some { type_ := "Parking Signage", severity := "Critical", ada_code := "502.6",
           confidence := 4/5, detection_method := "rule_based_cv",
           measurements := [("blue_percentage", MeasVal.num (roundQ 1 (blue_percentage * 100))),
                            ("white_percentage", MeasVal.num (roundQ 1 (white_percentage * 100))),
                            ("required_blue_percentage", MeasVal.num (min_blue_percentage * 100))] }
  else if (min_blue_percentage ≤ blue_percentage) ∧
          ¬ (min_white_percentage ≤ white_percentage) then
    some { type_ := "Wheelchair Symbol", severity := "Critical", ada_code := "502.6",
           confidence := 7/10, detection_method := "rule_based_cv",
           measurements := [("blue_percentage", MeasVal.num (roundQ 1 (blue_percentage * 100))),
                            ("white_percentage", MeasVal.num (roundQ 1 (white_percentage * 100)))] }
  else none

/-- Sum of the row indices of blue pixels: models
`np.where(blue_mask > 0)[0]` summed, for the mean vertical position. -/
def blueRowSum (height width : ℕ) (pix : ℕ → ℕ → ℕ × ℕ × ℕ) : ℕ :=
  ((List.range height).map
    (fun i => i * ((List.range width).filter (fun j => isBlue (pix i j))).length)).sum

/-- `relative_position` in `_check_sign_position`: the blue pixels' mean
row index over the region height. -/
def relative_position (height width : ℕ) (pix : ℕ → ℕ → ℕ × ℕ × ℕ) : ℚ :=
  (((blueRowSum height width pix : ℕ) : ℚ) / ((countPix height width pix isBlue : ℕ) : ℚ))
    / (height : ℚ)

/-- `ParkingAnalyzer._check_sign_position`: when blue pixels exist and
their mean row position exceeds 60% of the height, flags "Sign Height".
Runs regardless of `_check_signage`'s outcome. -/
def check_sign_position (height width : ℕ) (pix : ℕ → ℕ → ℕ × ℕ × ℕ) :
    Option ViolationResult :=
  let blueCnt := countPix height width pix isBlue
  if 0 < blueCnt then
    let relative_position : ℚ := relative_position height width pix
    if 3/5 < relative_position then
      some { type_ := "Sign Height", severity := "Moderate", ada_code := "502.6",
             confidence := 3/5, detection_method := "rule_based_cv",
             measurements := [("vertical_position_percentage",
                                MeasVal.num (roundQ 0 (relative_position * 100))),
                              ("required_height_inches", MeasVal.num 60)] }
    else none
  else none

/-- `ParkingAnalyzer.analyze`: empty-region guard, then the signage check
and the (independent) sign-position check, appended in source order. -/
def analyze (height width : ℕ) (pix : ℕ → ℕ → ℕ × ℕ × ℕ) : List ViolationResult :=
  if height * width = 0 then []
  else (check_signage height width pix).toList ++ (check_sign_position height width pix).toList

end ParkingAnalyzer

namespace PathwayAnalyzer

/-- `self.obstruction_objects` (pathway_analyzer.py). -/
def obstruction_objects : List String :=
  ["chair", "couch", "bench", "potted_plant", "vase",
   "suitcase", "backpack", "handbag", "umbrella",
   "bicycle", "motorcycle", "fire_hydrant"]

/-- `high_risk_objects` in `_check_obstruction`. -/
def high_risk_objects : List String := ["chair", "couch", "bench", "bicycle"]

/-- `relative_size` in `_check_obstruction`: the detection's bbox area
`w * h` over the cropped region's pixel count, guarded against a
zero-area region.  `height`/`width` are the cropped region's dimensions;
the bbox `w`, `h` come from the detection. -/
def relative_size (height width : ℕ) (det : Detection) : ℚ :=
  let (_x, _y, w, h) := det.bbox
  if 0 < width * height then ((w * h : ℤ) : ℚ) / ((width * height : ℕ) : ℚ) else 0

/-- `PathwayAnalyzer._check_obstruction`, mirroring the source branch
structure exactly: the `elif relative_size > 0.5` (Critical) arm is
written after the `if relative_size > 0.3` arm, and is therefore
shadowed by it. -/
def check_obstruction (height width : ℕ) (det : Detection) : ViolationResult :=
  let relative_size : ℚ := relative_size height width det
  let sevConf : String × ℚ :=
    if 3/10 < relative_size then ("Moderate", 13/20)
    else if 1/2 < relative_size then ("Critical", 7/10)
    else ("Moderate", 3/5)
  let confidence : ℚ :=
    sevConf.2 + (if lowerStr det.class_name ∈ high_risk_objects then 1/20 else 0)
  { type_ := "Pathway Obstruction", severity := sevConf.1, ada_code := "403.5.1",
    confidence := min confidence (3/4), detection_method := "rule_based_cv",
    measurements := [("object_type", MeasVal.str det.class_name),
                     ("relative_size_percentage", MeasVal.num (roundQ 1 (relative_size * 100))),
                     ("required_clear_width_inches", MeasVal.num 36),
                     ("max_protrusion_inches", MeasVal.num 4)] }

/-- `PathwayAnalyzer.analyze`: empty-region guard, allow-list membership
test on the lower-cased label, then the obstruction check (which always
returns a violation once reached). -/
def analyze (height width : ℕ) (det : Detection) : List ViolationResult :=
  if height * width = 0 then []
  else if lowerStr det.class_name ∈ obstruction_objects then
    [check_obstruction height width det]
  else []

end PathwayAnalyzer

/-- A Hough line segment, as returned by `cv2.HoughLinesP` (integer
endpoint coordinates). -/
structure Line where
  x1 : ℤ
  y1 : ℤ
  x2 : ℤ
  y2 : ℤ
  deriving DecidableEq

namespace RampAnalyzer

/-- `self.max_slope_degrees = 5.0` (ramp_analyzer.py). -/
def max_slope_degrees : ℝ := 5

/-- `self.warning_slope_degrees = 4.0` (ramp_analyzer.py). -/
def warning_slope_degrees : ℝ := 4

/-- The angle from horizontal the code computes for one segment:
`abs(np.degrees(np.arctan((y2 - y1) / (x2 - x1))))`.  Only evaluated on
segments with `x2 - x1 != 0`. -/
noncomputable def lineAngle (l : Line) : ℝ :=
  |Real.arctan (((l.y2 - l.y1 : ℤ) : ℝ) / ((l.x2 - l.x1 : ℤ) : ℝ)) * (180 / Real.pi)|

open scoped Classical

/-- The angle list `_check_slope` accumulates: non-vertical segments whose
angle lies strictly inside the plausible ramp band (10, 80). -/
noncomputable def qualifyingAngles (lines : List Line) : List ℝ :=
  lines.filterMap (fun l =>
    if l.x2 - l.x1 ≠ 0 then
      (if 10 < lineAngle l ∧ lineAngle l < 80 then some (lineAngle l) else none)
    else none)

/-- `max(angles)` over the (nonempty) qualifying-angle list; 0 on the
empty list, which `_check_slope` never reaches. -/
noncomputable def steepestAngle (lines : List Line) : ℝ :=
  match qualifyingAngles lines with
  | [] => 0
  | a :: rest => rest.foldl max a

/-- Rounding a real to `d` decimal digits, modelling Python's `round` as
in `roundQ`. -/
noncomputable def roundR (d : ℕ) (x : ℝ) : ℚ := ((round (x * 10 ^ d) : ℤ) : ℚ) / 10 ^ d

/-- `RampAnalyzer._check_slope`: the Hough output (`none` models cv2
returning `None`) is reduced to qualifying angles; the steepest is
compared against the maximum and warning slope thresholds. -/
noncomputable def check_slope (lines : Option (List Line)) : Option ViolationResult :=
  match lines with
  | none => none
  | some ls =>
    if ls.length = 0 then none
    else if (qualifyingAngles ls).length = 0 then none
    else
      let steepest := steepestAngle ls
      let meas : List (String × MeasVal) :=
        [("detected_angle_degrees", MeasVal.num (roundR 1 steepest)),
         ("max_allowed_angle_degrees", MeasVal.num (119/25)),
         ("max_allowed_ratio", MeasVal.str "1:12"),
         ("max_allowed_percentage", MeasVal.num (833/100))]
      if max_slope_degrees < steepest then
        some { type_ := "Ramp Slope", severity := "Critical", ada_code := "405.2",
               confidence := 3/5, detection_method := "rule_based_cv",
               measurements := meas }
      else if warning_slope_degrees < steepest then
        some { type_ := "Ramp Slope", severity := "Moderate", ada_code := "405.2",
               confidence := 11/20, detection_method := "rule_based_cv",
               measurements := meas }
      else none

/-- `RampAnalyzer._check_handrails`: `None` from cv2 means no long lines
at all; otherwise the segments are split by mean x into the left and
right thirds and either empty side is reported. -/
def check_handrails (width : ℕ) (lines : Option (List Line)) : Option ViolationResult :=
  match lines with
  | none =>
    some { type_ := "Ramp Handrails", severity := "Moderate", ada_code := "405.8",
           confidence := 13/20, detection_method := "rule_based_cv",
           measurements := [("handrail_features_detected", MeasVal.num 0),
                            ("required_handrails", MeasVal.num 2)] }
  | some ls =>
    let left_lines := ls.filter (fun l => ((l.x1 + l.x2 : ℤ) : ℚ) / 2 < (width : ℚ) * (3/10))
    let right_lines := ls.filter (fun l =>
      ¬ (((l.x1 + l.x2 : ℤ) : ℚ) / 2 < (width : ℚ) * (3/10)) ∧
      (width : ℚ) * (7/10) < ((l.x1 + l.x2 : ℤ) : ℚ) / 2)
    if left_lines.length = 0 ∨ right_lines.length = 0 then
      some { type_ := "Ramp Handrails", severity := "Moderate", ada_code := "405.8",
             confidence := 3/5, detection_method := "rule_based_cv",
             measurements := [("left_handrail_features", MeasVal.num (left_lines.length : ℚ)),
                              ("right_handrail_features", MeasVal.num (right_lines.length : ℚ)),
                              ("required_handrails", MeasVal.num 2)] }
    else none

/-- `RampAnalyzer.analyze`: empty-region guard, then the slope check and
the handrail check appended in source order.  The two Hough calls use
different parameters, so the two line lists are independent oracles. -/
noncomputable def analyze (height width : ℕ)
    (slopeLines handrailLines : Option (List Line)) : List ViolationResult :=
  if height * width = 0 then []
  else (check_slope slopeLines).toList ++ (check_handrails width handrailLines).toList

end RampAnalyzer

namespace SignageAnalyzer

/-- `self.min_contrast_ratio = 3.0` (signage_analyzer.py). -/
def min_contrast_rat : ℚ := 3

/-- `self.low_contrast_ratio = 2.5` (signage_analyzer.py). -/
def low_contrast_rat : ℚ := 5/2

/-- All luminance (LAB L-channel, the external cv2.cvtColor output)
values of the h x w region, row major. -/
def pixelList (height width : ℕ) (l : ℕ → ℕ → ℕ) : List ℕ :=
  (List.range height).flatMap (fun i => (List.range width).map (fun j => l i j))

/-- `np.max` over a pixel list (0 on the empty list, unreachable under
the size guard). -/
def listMaxN : List ℕ → ℕ
  | [] => 0
  | x :: xs => xs.foldl max x

/-- `np.min` over a pixel list (0 on the empty list, unreachable under
the size guard). -/
def listMinN : List ℕ → ℕ
  | [] => 0
  | x :: xs => xs.foldl min x

/-- `SignageAnalyzer._check_contrast`: the WCAG-style ratio
`(max/255 + 0.05) / (min/255 + 0.05)` against the two thresholds. -/
def check_contrast (height width : ℕ) (l : ℕ → ℕ → ℕ) : Option ViolationResult :=
  let ls := pixelList height width l
  let max_luminance := listMaxN ls
  let min_luminance := listMinN ls
  let l1 : ℚ := (max_luminance : ℚ) / 255
  let l2 : ℚ := (min_luminance : ℚ) / 255
  let contrast_rat : ℚ := (l1 + 1/20) / (l2 + 1/20)
  let meas : List (String × MeasVal) :=
    [("contrast_ratio", MeasVal.num (roundQ 2 contrast_rat)),
     ("min_required_ratio", MeasVal.num 3),
     ("max_luminance", MeasVal.num (max_luminance : ℚ)),
     ("min_luminance", MeasVal.num (min_luminance : ℚ))]
  if contrast_rat < low_contrast_rat then
    some { type_ := "Sign Contrast", severity := "Critical", ada_code := "703.5",
           confidence := 7/10, detection_method := "rule_based_cv",
           measurements := meas }
  else if contrast_rat < min_contrast_rat then
    some { type_ := "Sign Contrast", severity := "Moderate", ada_code := "703.5",
           confidence := 13/20, detection_method := "rule_based_cv",
           measurements := meas }
  else none

/-- Python `range(0, stop, step)` for a natural `stop` (truncated
subtraction upstream makes a negative Python stop and stop 0 agree:
both give the empty range). -/
def pyRangeStep (stop step : ℕ) : List ℕ :=
  (List.range ((stop + step - 1) / step)).map (· * step)

/-- The patch-corner grid of `_check_tactile_features`:
`for y in range(0, height - 20, 20): for x in range(0, width - 20, 20)`. -/
def patchCoords (height width : ℕ) : List (ℕ × ℕ) :=
  (pyRangeStep (height - 20) 20).flatMap
    (fun y => (pyRangeStep (width - 20) 20).map (fun x => (y, x)))

/-- `np.max` over a rational score list (0 on the empty list, which the
length guard rules out). -/
def listMaxQ : List ℚ → ℚ
  | [] => 0
  | x :: xs => xs.foldl max x

/-- `SignageAnalyzer._check_tactile_features`: per-patch standard
deviations (`np.std`, an external numeric routine, supplied as the
oracle `stdOf` on patch corners) against the texture floors. -/
def check_tactile_features (height width : ℕ) (stdOf : ℕ → ℕ → ℚ) :
    Option ViolationResult :=
  let texture_scores := (patchCoords height width).map (fun p => stdOf p.1 p.2)
  if texture_scores.length = 0 then none
  else
    let avg_texture : ℚ := texture_scores.sum / (texture_scores.length : ℚ)
    let max_texture : ℚ := listMaxQ texture_scores
    if avg_texture < 15 ∧ max_texture < 25 then
      some { type_ := "Tactile Features", severity := "Minor", ada_code := "703.2",
             confidence := 11/20, detection_method := "rule_based_cv",
             measurements := [("average_texture_score", MeasVal.num (roundQ 1 avg_texture)),
                              ("max_texture_score", MeasVal.num (roundQ 1 max_texture)),
                              ("texture_threshold", MeasVal.num 15),
                              ("min_character_height_inches", MeasVal.num (5/8)),
                              ("max_character_height_inches", MeasVal.num 2)] }
    else none

/-- `SignageAnalyzer.analyze`: empty-region guard, then the contrast and
tactile checks appended in source order. -/
def analyze (height width : ℕ) (l : ℕ → ℕ → ℕ) (stdOf : ℕ → ℕ → ℚ) :
    List ViolationResult :=
  if height * width = 0 then []
  else (check_contrast height width l).toList
       ++ (check_tactile_features height width stdOf).toList

end SignageAnalyzer

/-- A parsed JSON value, the result type of the standard library's
`json.loads` (numeric literals are decimal, hence rational). -/
inductive Json where
  | null
  | bool (b : Bool)
  | num (q : ℚ)
  | str (s : String)
  | arr (elems : List Json)
  | obj (fields : List (String × Json))

namespace PyStr

/-- First index at or after `k` where `sub` occurs; helper for Python
`str.find`. -/
def findAux (sub : List Char) : List Char → ℕ → Option ℕ
  | [], k => if sub.isEmpty then some k else none
  | c :: rest, k =>
    if sub.isPrefixOf (c :: rest) then some k else findAux sub rest (k + 1)

/-- Python `s.find(sub)`: first occurrence index, or -1. -/
def pyFind (s sub : String) : ℤ :=
  match findAux sub.data s.data 0 with
  | some k => (k : ℤ)
  | none => -1

/-- Python `s.find(sub, start)` for a nonnegative `start` (the only form
the source uses). -/
def pyFindFrom (s sub : String) (start : ℕ) : ℤ :=
  match findAux sub.data (s.data.drop start) 0 with
  | some k => ((k + start : ℕ) : ℤ)
  | none => -1

/-- Python `s.rfind(sub)`: the largest occurrence index, or -1. -/
def pyRfind (s sub : String) : ℤ :=
  match ((List.range (s.data.length + 1)).filter
      (fun k => sub.data.isPrefixOf (s.data.drop k))).getLast? with
  | some k => (k : ℤ)
  | none => -1

/-- A Python slice bound normalised against length `n`: negative indices
count from the end, and the result clamps into [0, n]. -/
def normIdx (n : ℕ) (i : ℤ) : ℕ :=
  if i < 0 then (max (i + n) 0).toNat else min i.toNat n

/-- Python `s[i:j]`, with full slice semantics. -/
def pySlice (s : String) (i j : ℤ) : String :=
  let n := s.data.length
  String.mk ((s.data.take (normIdx n j)).drop (normIdx n i))

/-- The characters Python `str.strip()` removes. -/
def isSpaceChar (c : Char) : Bool :=
  c = ' ' ∨ c = Char.ofNat 9 ∨ c = Char.ofNat 10 ∨ c = Char.ofNat 13 ∨
  c = Char.ofNat 11 ∨ c = Char.ofNat 12

/-- Python `s.strip()`. -/
def pyStrip (s : String) : String :=
  String.mk (((s.data.dropWhile isSpaceChar).reverse.dropWhile isSpaceChar).reverse)

/-- Python `s[:n]`. -/
def pyTake (n : ℕ) (s : String) : String := String.mk (s.data.take n)

end PyStr

namespace ClaudeAPIAnalyzer

/-- `ClaudeAPIAnalyzer._extract_json` (claude_analyzer.py).  `loads` is
the standard library's `json.loads`, an external parser modelled as an
oracle returning `none` exactly where Python raises `JSONDecodeError`.
Python's `sub in text` test is `0 ≤ pyFind text sub`. -/
def extract_json (loads : String → Option Json) (text : String) : Json :=
  match loads text with
  | some j => j
  | none =>
    let json_text : String :=
      if 0 ≤ PyStr.pyFind text "```json" then
        let start := (PyStr.pyFind text "```json").toNat + 7
        PyStr.pyStrip (PyStr.pySlice text (start : ℤ) (PyStr.pyFindFrom text "```" start))
      else if 0 ≤ PyStr.pyFind text "```" then
        let start := (PyStr.pyFind text "```").toNat + 3
        PyStr.pyStrip (PyStr.pySlice text (start : ℤ) (PyStr.pyFindFrom text "```" start))
      else
        let start := PyStr.pyFind text "\x7b"
        let stop := PyStr.pyRfind text "\x7d" + 1
        if start ≠ -1 ∧ stop ≠ 0 then PyStr.pySlice text start stop
        else text
    match loads json_text with
    | some j => j
    | none =>
      Json.obj [("violations", Json.arr []),
                ("overall_assessment", Json.str "Parse error"),
                ("notes", Json.str (PyStr.pyTake 200 text))]

/-- A violation record as `_parse_response` builds it: the raw JSON
values land unvalidated in the dataclass fields (free-text fields again
not modelled). -/
structure ClaudeViolation where
  type_ : Json
  severity : Json
  ada_code : Json
  confidence : Json
  detection_method : String

/-- `dict.get(key, default)` on a JSON object's field list. -/
def getD (fields : List (String × Json)) (key : String) (default : Json) : Json :=
  match fields.lookup key with
  | some v => v
  | none => default

/-- One iteration of the `_parse_response` loop: a JSON-object entry
yields a record; on any other entry `v_dict.get` raises and the
per-record `except` arm drops it. -/
def parseEntry : Json → Option ClaudeViolation
  | Json.obj fields =>
    some { type_ := getD fields "type" (Json.str "Unknown"),
           severity := getD fields "severity" (Json.str "Minor"),
           ada_code := getD fields "ada_code" (Json.str "N/A"),
           confidence := getD fields "confidence" (Json.num (1/2)),
           detection_method := "claude_api" }
  | _ => none

/-- `violations_data = response.get("violations", [])`: a missing key
defaults to the empty list.  A non-array `violations` value or a
non-object response makes Python raise before any record is built and is
outside the modelled domain. -/
def violations_data (response : List (String × Json)) : List Json :=
  match response.lookup "violations" with
  | some (Json.arr vs) => vs
  | some _ => []
  | none => []

/-- `ClaudeAPIAnalyzer._parse_response` over a JSON-object response. -/
def parse_response (response : List (String × Json)) : List ClaudeViolation :=
  (violations_data response).filterMap parseEntry

end ClaudeAPIAnalyzer

/-- The spec's record invariant at the JSON level, for records built by
the model-backed analyzer: enum severity string and numeric confidence
in [0, 1]. -/
def claudeResultOk (v : ClaudeAPIAnalyzer.ClaudeViolation) : Prop :=
  (v.severity = Json.str "Critical" ∨ v.severity = Json.str "Moderate" ∨
   v.severity = Json.str "Minor") ∧
  ∃ q : ℚ, v.confidence = Json.num q ∧ 0 ≤ q ∧ q ≤ 1

/-- A response violation entry whose present `severity`/`confidence`
fields already satisfy the record invariant. -/
def entryOk (j : Json) : Prop :=
  ∀ fields, j = Json.obj fields →
    (∀ s, fields.lookup "severity" = some s →
      s = Json.str "Critical" ∨ s = Json.str "Moderate" ∨ s = Json.str "Minor") ∧
    (∀ c, fields.lookup "confidence" = some c →
      ∃ q : ℚ, c = Json.num q ∧ 0 ≤ q ∧ q ≤ 1)

/-- A concrete parser oracle: accepts exactly the two-character object
text and nothing else (as `json.loads` does on the strings the traces
below query). -/
def loadsDemo : String → Option Json :=
  fun s => if s = "\x7b\x7d" then some (Json.obj []) else none

namespace BaseAnalyzer

/-- One entry of the dict `analyze_all_detections` builds per
detection (`results["detection_i"]`). -/
structure Entry where
  object : String
  bbox : ℤ × ℤ × ℤ × ℤ
  violations : List ViolationResult
  analyzer_type : String
  detection_index : ℕ
  deriving DecidableEq

/-- The loop body of `analyze_all_detections` with the `enumerate`
index explicit.  `f` is the abstract per-detection analyzer
`analyze_detection` (its image argument is fixed across the loop and is
folded into `f`); the Python dict preserves insertion order, so it is
modelled as the association list in construction order. -/
def analyze_all_from (name : String) (f : Detection → List ViolationResult) :
    ℕ → List Detection → List (String × Entry)
  | _, [] => []
  | i, d :: ds =>
    ("detection_" ++ toString i,
      { object := d.class_name, bbox := d.bbox, violations := f d,
        analyzer_type := name, detection_index := i })
      :: analyze_all_from name f (i + 1) ds

/-- `BaseAnalyzer.analyze_all_detections`. -/
def analyze_all_detections (name : String) (f : Detection → List ViolationResult)
    (detections : List Detection) : List (String × Entry) :=
  analyze_all_from name f 0 detections

end BaseAnalyzer

/-! ### Helper lemmas -/

theorem check_width_very_narrow {height width : ℕ} (hw : 0 < width)
    (h3 : 3 < (height : ℚ) / width) :
    ∃ v, DoorAnalyzer.check_width height width = some v ∧
      v.type_ = "Door Width" ∧ v.severity = "Critical" := by
  have h3' : DoorAnalyzer.very_narrow_rat < (height : ℚ) / width := by
    unfold DoorAnalyzer.very_narrow_rat; exact h3
  unfold DoorAnalyzer.check_width
  simp only [if_pos hw, if_pos h3']
  exact ⟨_, rfl, rfl, rfl⟩

theorem check_width_none {height width : ℕ} (hw : 0 < width)
    (h25 : (height : ℚ) / width ≤ 5/2) :
    DoorAnalyzer.check_width height width = none := by
  have h1 : ¬ (DoorAnalyzer.very_narrow_rat < (height : ℚ) / width) := by
    unfold DoorAnalyzer.very_narrow_rat; linarith
  have h2 : ¬ (DoorAnalyzer.narrow_door_rat < (height : ℚ) / width) := by
    unfold DoorAnalyzer.narrow_door_rat; linarith
  unfold DoorAnalyzer.check_width
  simp only [if_pos hw, if_neg h1, if_neg h2]

theorem check_threshold_type {height width : ℕ} {e : ℕ → ℕ → Bool}
    {v : ViolationResult}
    (h : DoorAnalyzer.check_threshold height width e = some v) :
    v.type_ = "Door Threshold" := by
  simp only [DoorAnalyzer.check_threshold] at h
  split at h
  · cases h; rfl
  · cases h

theorem check_hardware_type {height width : ℕ} {contours : List Contour}
    {v : ViolationResult}
    (h : DoorAnalyzer.check_hardware height width contours = some v) :
    v.type_ = "Door Hardware" := by
  simp only [DoorAnalyzer.check_hardware] at h
  split at h
  · cases h; rfl
  · cases h

/-! ### Claim C6 -/

/-- Claim C6: for every non-empty region, the door analyzer yields at
least one "Door Width" violation with severity "Critical" when the
height/width aspect ratio exceeds 3.0, and yields no "Door Width"
violation at all when the ratio is at most 2.5. -/
theorem c6_door_width (height width : ℕ) (hh : 0 < height) (hw : 0 < width)
    (e : ℕ → ℕ → Bool) (contours : List Contour) :
    (3 < (height : ℚ) / width →
      ∃ v ∈ DoorAnalyzer.analyze height width e contours,
        v.type_ = "Door Width" ∧ v.severity = "Critical") ∧
    ((height : ℚ) / width ≤ 5/2 →
      ∀ v ∈ DoorAnalyzer.analyze height width e contours, v.type_ ≠ "Door Width") := by
  have hsize : ¬ (height * width = 0) := by positivity
  constructor
  · intro h3
    obtain ⟨v, hv, ht, hs⟩ := check_width_very_narrow hw h3
    refine ⟨v, ?_, ht, hs⟩
    unfold DoorAnalyzer.analyze
    rw [if_neg hsize]
    simp [hv]
  · intro h25 v hv
    unfold DoorAnalyzer.analyze at hv
    rw [if_neg hsize, check_width_none hw h25] at hv
    simp only [Option.toList_none, List.nil_append, List.mem_append] at hv
    rcases hv with hv | hv
    · simp only [Option.mem_toList, Option.mem_def] at hv
      rw [check_threshold_type hv]
      decide
    · simp only [Option.mem_toList, Option.mem_def] at hv
      rw [check_hardware_type hv]
      decide

/-- Witness for C6 at the concrete ratios 301/100 > 3 and 5/2 ≤ 2.5. -/
theorem c6_door_width_witness :
    ((0 : ℕ) < 301 ∧ (0 : ℕ) < 100 ∧ 3 < (301 : ℚ) / 100 ∧
      ∃ v ∈ DoorAnalyzer.analyze 301 100 (fun _ _ => false) [],
        v.type_ = "Door Width" ∧ v.severity = "Critical") ∧
    ((0 : ℕ) < 5 ∧ (0 : ℕ) < 2 ∧ (5 : ℚ) / 2 ≤ 5/2 ∧
      ∀ v ∈ DoorAnalyzer.analyze 5 2 (fun _ _ => false) [],
        v.type_ ≠ "Door Width") := by
  constructor
  · exact ⟨by norm_num, by norm_num, by norm_num,
      (c6_door_width 301 100 (by norm_num) (by norm_num) (fun _ _ => false) []).1
        (by norm_num)⟩
  · exact ⟨by norm_num, by norm_num, by norm_num,
      (c6_door_width 5 2 (by norm_num) (by norm_num) (fun _ _ => false) []).2
        (by norm_num)⟩

/-! ### Claim C2 -/

/-- Claim C2: every category analyzer yields the empty violation list on
an empty (zero-width or zero-height) region; being total Lean functions,
the embedded analyzers cannot raise. -/
theorem c2_empty_region (height width : ℕ) (hz : height = 0 ∨ width = 0)
    (e : ℕ → ℕ → Bool) (contours : List Contour)
    (pix : ℕ → ℕ → ℕ × ℕ × ℕ) (det : Detection)
    (slopeLines handrailLines : Option (List Line))
    (l : ℕ → ℕ → ℕ) (stdOf : ℕ → ℕ → ℚ) :
    DoorAnalyzer.analyze height width e contours = [] ∧
    ParkingAnalyzer.analyze height width pix = [] ∧
    PathwayAnalyzer.analyze height width det = [] ∧
    RampAnalyzer.analyze height width slopeLines handrailLines = [] ∧
    SignageAnalyzer.analyze height width l stdOf = [] := by
  have h0 : height * width = 0 := by rcases hz with h | h <;> simp [h]
  refine ⟨?_, ?_, ?_, ?_, ?_⟩
  · unfold DoorAnalyzer.analyze; rw [if_pos h0]
  · unfold ParkingAnalyzer.analyze; rw [if_pos h0]
  · unfold PathwayAnalyzer.analyze; rw [if_pos h0]
  · unfold RampAnalyzer.analyze; rw [if_pos h0]
  · unfold SignageAnalyzer.analyze; rw [if_pos h0]

/-- Witness for C2 on a concrete 0 x 7 region. -/
theorem c2_empty_region_witness :
    ((0 : ℕ) = 0 ∨ (7 : ℕ) = 0) ∧
    DoorAnalyzer.analyze 0 7 (fun _ _ => true) [] = [] ∧
    ParkingAnalyzer.analyze 0 7 (fun _ _ => (100, 200, 200)) = [] ∧
    PathwayAnalyzer.analyze 0 7 { class_name := "chair", bbox := (0, 0, 3, 3) } = [] ∧
    RampAnalyzer.analyze 0 7 (some [⟨0, 6, 6, 0⟩]) none = [] ∧
    SignageAnalyzer.analyze 0 7 (fun _ _ => 0) (fun _ _ => 0) = [] := by
  have h := c2_empty_region 0 7 (Or.inl rfl) (fun _ _ => true) []
    (fun _ _ => (100, 200, 200)) { class_name := "chair", bbox := (0, 0, 3, 3) }
    (some [⟨0, 6, 6, 0⟩]) none (fun _ _ => 0) (fun _ _ => 0)
  exact ⟨Or.inl rfl, h.1, h.2.1, h.2.2.1, h.2.2.2.1, h.2.2.2.2⟩

theorem check_signage_no_blue {height width : ℕ} {pix : ℕ → ℕ → ℕ × ℕ × ℕ}
    (h : ParkingAnalyzer.blue_percentage height width pix <
        ParkingAnalyzer.min_blue_percentage) :
    ∃ v, ParkingAnalyzer.check_signage height width pix = some v ∧
      v.type_ = "Parking Signage" ∧ v.severity = "Critical" := by
  simp only [ParkingAnalyzer.check_signage]
  rw [if_pos (not_le.mpr h)]
  exact ⟨_, rfl, rfl, rfl⟩

theorem check_signage_no_white {height width : ℕ} {pix : ℕ → ℕ → ℕ × ℕ × ℕ}
    (hb : ParkingAnalyzer.min_blue_percentage ≤
        ParkingAnalyzer.blue_percentage height width pix)
    (hnw : ParkingAnalyzer.white_percentage height width pix <
        ParkingAnalyzer.min_white_percentage) :
    ∃ v, ParkingAnalyzer.check_signage height width pix = some v ∧
      v.type_ = "Wheelchair Symbol" ∧ v.severity = "Critical" := by
  simp only [ParkingAnalyzer.check_signage]
  rw [if_neg (not_not_intro hb), if_pos ⟨hb, not_le.mpr hnw⟩]
  exact ⟨_, rfl, rfl, rfl⟩

theorem check_signage_both {height width : ℕ} {pix : ℕ → ℕ → ℕ × ℕ × ℕ}
    (hb : ParkingAnalyzer.min_blue_percentage ≤
        ParkingAnalyzer.blue_percentage height width pix)
    (hwh : ParkingAnalyzer.min_white_percentage ≤
        ParkingAnalyzer.white_percentage height width pix) :
    ParkingAnalyzer.check_signage height width pix = none := by
  simp only [ParkingAnalyzer.check_signage]
  rw [if_neg (not_not_intro hb), if_neg (fun hc => hc.2 hwh)]

theorem check_signage_ps_inv {height width : ℕ} {pix : ℕ → ℕ → ℕ × ℕ × ℕ}
    {v : ViolationResult}
    (h : ParkingAnalyzer.check_signage height width pix = some v)
    (ht : v.type_ = "Parking Signage") :
    ParkingAnalyzer.blue_percentage height width pix <
      ParkingAnalyzer.min_blue_percentage := by
  by_cases hb : ParkingAnalyzer.min_blue_percentage ≤
      ParkingAnalyzer.blue_percentage height width pix
  · simp only [ParkingAnalyzer.check_signage] at h
    rw [if_neg (not_not_intro hb)] at h
    split at h
    · cases h
      have ht' : ("Wheelchair Symbol" : String) = "Parking Signage" := ht
      exact absurd ht' (by decide)
    · cases h
  · exact not_le.mp hb

theorem check_sign_position_type {height width : ℕ} {pix : ℕ → ℕ → ℕ × ℕ × ℕ}
    {v : ViolationResult}
    (h : ParkingAnalyzer.check_sign_position height width pix = some v) :
    v.type_ = "Sign Height" := by
  simp only [ParkingAnalyzer.check_sign_position] at h
  split at h
  · split at h
    · cases h; rfl
    · cases h
  · cases h

theorem check_sign_position_pos {height width : ℕ} {pix : ℕ → ℕ → ℕ × ℕ × ℕ}
    (hc : 0 < ParkingAnalyzer.countPix height width pix ParkingAnalyzer.isBlue)
    (hr : 3/5 < ParkingAnalyzer.relative_position height width pix) :
    ∃ v, ParkingAnalyzer.check_sign_position height width pix = some v ∧
      v.type_ = "Sign Height" ∧ v.severity = "Moderate" := by
  simp only [ParkingAnalyzer.check_sign_position]
  rw [if_pos hc, if_pos hr]
  exact ⟨_, rfl, rfl, rfl⟩

theorem parking_analyze_mem {height width : ℕ} {pix : ℕ → ℕ → ℕ × ℕ × ℕ}
    (hsize : ¬ (height * width = 0)) (v : ViolationResult) :
    v ∈ ParkingAnalyzer.analyze height width pix ↔
      (ParkingAnalyzer.check_signage height width pix = some v ∨
       ParkingAnalyzer.check_sign_position height width pix = some v) := by
  unfold ParkingAnalyzer.analyze
  rw [if_neg hsize]
  simp [List.mem_append, Option.mem_toList, Option.mem_def]

/-! ### Claim C7 -/

/-- Claim C7: for every non-empty region, the parking signage check emits
a Critical "Parking Signage" violation exactly when the blue-range pixel
fraction is below the 5% threshold; emits a Critical "Wheelchair Symbol"
violation when the blue fraction meets its threshold but the white
fraction is below 2%; and emits no signage violation when both fractions
meet their thresholds. -/
theorem c7_parking_signage (height width : ℕ) (hh : 0 < height) (hw : 0 < width)
    (pix : ℕ → ℕ → ℕ × ℕ × ℕ) :
    (ParkingAnalyzer.blue_percentage height width pix < 1/20 ↔
      ∃ v ∈ ParkingAnalyzer.analyze height width pix,
        v.type_ = "Parking Signage" ∧ v.severity = "Critical") ∧
    (1/20 ≤ ParkingAnalyzer.blue_percentage height width pix →
     ParkingAnalyzer.white_percentage height width pix < 1/50 →
      ∃ v ∈ ParkingAnalyzer.analyze height width pix,
        v.type_ = "Wheelchair Symbol" ∧ v.severity = "Critical") ∧
    (1/20 ≤ ParkingAnalyzer.blue_percentage height width pix →
     1/50 ≤ ParkingAnalyzer.white_percentage height width pix →
      ∀ v ∈ ParkingAnalyzer.analyze height width pix,
        v.type_ ≠ "Parking Signage" ∧ v.type_ ≠ "Wheelchair Symbol") := by
  have hsize : ¬ (height * width = 0) := by positivity
  have hbp : ParkingAnalyzer.min_blue_percentage = 1/20 := rfl
  have hwp : ParkingAnalyzer.min_white_percentage = 1/50 := rfl
  refine ⟨⟨?_, ?_⟩, ?_, ?_⟩
  · intro hblue
    obtain ⟨v, hv, ht, hs⟩ := check_signage_no_blue (hbp ▸ hblue)
    exact ⟨v, (parking_analyze_mem hsize v).mpr (Or.inl hv), ht, hs⟩
  · rintro ⟨v, hv, ht, -⟩
    rcases (parking_analyze_mem hsize v).mp hv with h | h
    · exact hbp ▸ check_signage_ps_inv h ht
    · rw [check_sign_position_type h] at ht
      exact absurd ht (by decide)
  · intro hblue hwhite
    obtain ⟨v, hv, ht, hs⟩ := check_signage_no_white (hbp ▸ hblue) (hwp ▸ hwhite)
    exact ⟨v, (parking_analyze_mem hsize v).mpr (Or.inl hv), ht, hs⟩
  · intro hblue hwhite v hv
    rcases (parking_analyze_mem hsize v).mp hv with h | h
    · rw [check_signage_both (hbp ▸ hblue) (hwp ▸ hwhite)] at h
      cases h
    · rw [check_sign_position_type h]
      exact ⟨by decide, by decide⟩

/-- Witness for C7 on three concrete 2 x 2 HSV regions: all-black (no
blue), all-blue (no white), and blue with one white pixel. -/
theorem c7_parking_signage_witness :
    (ParkingAnalyzer.blue_percentage 2 2 (fun _ _ => (0, 0, 0)) < 1/20 ∧
     ∃ v ∈ ParkingAnalyzer.analyze 2 2 (fun _ _ => (0, 0, 0)),
       v.type_ = "Parking Signage" ∧ v.severity = "Critical") ∧
    (∃ v ∈ ParkingAnalyzer.analyze 2 2 (fun _ _ => (100, 200, 200)),
       v.type_ = "Wheelchair Symbol" ∧ v.severity = "Critical") ∧
    (∀ v ∈ ParkingAnalyzer.analyze 2 2
        (fun i j => if i = 0 ∧ j = 0 then (0, 0, 200) else (100, 200, 200)),
       v.type_ ≠ "Parking Signage" ∧ v.type_ ≠ "Wheelchair Symbol") := by
  have hA : ParkingAnalyzer.blue_percentage 2 2 (fun _ _ => (0, 0, 0)) = 0 := by
    unfold ParkingAnalyzer.blue_percentage
    rw [show ParkingAnalyzer.countPix 2 2 (fun _ _ => (0, 0, 0))
        ParkingAnalyzer.isBlue = 0 from by decide]
    norm_num
  have hB : ParkingAnalyzer.blue_percentage 2 2 (fun _ _ => (100, 200, 200)) = 1 := by
    unfold ParkingAnalyzer.blue_percentage
    rw [show ParkingAnalyzer.countPix 2 2 (fun _ _ => (100, 200, 200))
        ParkingAnalyzer.isBlue = 4 from by decide]
    norm_num
  have hBw : ParkingAnalyzer.white_percentage 2 2 (fun _ _ => (100, 200, 200)) = 0 := by
    unfold ParkingAnalyzer.white_percentage
    rw [show ParkingAnalyzer.countPix 2 2 (fun _ _ => (100, 200, 200))
        ParkingAnalyzer.isWhite = 0 from by decide]
    norm_num
  have hCb : ParkingAnalyzer.blue_percentage 2 2
      (fun i j => if i = 0 ∧ j = 0 then (0, 0, 200) else (100, 200, 200)) = 3/4 := by
    unfold ParkingAnalyzer.blue_percentage
    rw [show ParkingAnalyzer.countPix 2 2
        (fun i j => if i = 0 ∧ j = 0 then (0, 0, 200) else (100, 200, 200))
        ParkingAnalyzer.isBlue = 3 from by decide]
    norm_num
  have hCw : ParkingAnalyzer.white_percentage 2 2
      (fun i j => if i = 0 ∧ j = 0 then (0, 0, 200) else (100, 200, 200)) = 1/4 := by
    unfold ParkingAnalyzer.white_percentage
    rw [show ParkingAnalyzer.countPix 2 2
        (fun i j => if i = 0 ∧ j = 0 then (0, 0, 200) else (100, 200, 200))
        ParkingAnalyzer.isWhite = 1 from by decide]
    norm_num
  refine ⟨⟨by rw [hA]; norm_num, ?_⟩, ?_, ?_⟩
  · exact (c7_parking_signage 2 2 (by norm_num) (by norm_num) _).1.mp
      (by rw [hA]; norm_num)
  · exact (c7_parking_signage 2 2 (by norm_num) (by norm_num) _).2.1
      (by rw [hB]; norm_num) (by rw [hBw]; norm_num)
  · exact (c7_parking_signage 2 2 (by norm_num) (by norm_num) _).2.2
      (by rw [hCb]; norm_num) (by rw [hCw]; norm_num)

/-! ### Claim C10 -/

/-- Claim C10: the parking sign-position check runs independently of the
signage check's 5% blue threshold: any non-empty region with at least one
blue pixel whose mean blue row position exceeds 60% of the height
receives a Moderate "Sign Height" violation, and when the blue fraction
is additionally below 5% the same region also receives a
"Parking Signage" violation. -/
theorem c10_sign_position_independent (height width : ℕ)
    (pix : ℕ → ℕ → ℕ × ℕ × ℕ) (hsize : 0 < height * width)
    (hblue : 0 < ParkingAnalyzer.countPix height width pix ParkingAnalyzer.isBlue)
    (hpos : 3/5 < ParkingAnalyzer.relative_position height width pix) :
    (∃ v ∈ ParkingAnalyzer.analyze height width pix,
       v.type_ = "Sign Height" ∧ v.severity = "Moderate") ∧
    (ParkingAnalyzer.blue_percentage height width pix < 1/20 →
      ∃ v ∈ ParkingAnalyzer.analyze height width pix,
        v.type_ = "Parking Signage" ∧ v.severity = "Critical") := by
  have hsize' : ¬ (height * width = 0) := hsize.ne'
  constructor
  · obtain ⟨v, hv, ht, hs⟩ := check_sign_position_pos hblue hpos
    exact ⟨v, (parking_analyze_mem hsize' v).mpr (Or.inr hv), ht, hs⟩
  · intro hb
    obtain ⟨v, hv, ht, hs⟩ :=
      check_signage_no_blue (show _ < ParkingAnalyzer.min_blue_percentage from hb)
    exact ⟨v, (parking_analyze_mem hsize' v).mpr (Or.inl hv), ht, hs⟩

/-- Witness for C10 on a concrete 5 x 5 region with a single blue pixel
at row 4 (mean position 80% of the height, blue fraction 4%). -/
theorem c10_sign_position_witness :
    (0 : ℕ) < 5 * 5 ∧
    0 < ParkingAnalyzer.countPix 5 5
        (fun i j => if i = 4 ∧ j = 0 then (100, 200, 200) else (0, 0, 0))
        ParkingAnalyzer.isBlue ∧
    3/5 < ParkingAnalyzer.relative_position 5 5
        (fun i j => if i = 4 ∧ j = 0 then (100, 200, 200) else (0, 0, 0)) ∧
    ParkingAnalyzer.blue_percentage 5 5
        (fun i j => if i = 4 ∧ j = 0 then (100, 200, 200) else (0, 0, 0)) < 1/20 ∧
    (∃ v ∈ ParkingAnalyzer.analyze 5 5
        (fun i j => if i = 4 ∧ j = 0 then (100, 200, 200) else (0, 0, 0)),
       v.type_ = "Sign Height" ∧ v.severity = "Moderate") ∧
    (∃ v ∈ ParkingAnalyzer.analyze 5 5
        (fun i j => if i = 4 ∧ j = 0 then (100, 200, 200) else (0, 0, 0)),
       v.type_ = "Parking Signage" ∧ v.severity = "Critical") := by
  have hcnt : ParkingAnalyzer.countPix 5 5
      (fun i j => if i = 4 ∧ j = 0 then (100, 200, 200) else (0, 0, 0))
      ParkingAnalyzer.isBlue = 1 := by decide
  have hsum : ParkingAnalyzer.blueRowSum 5 5
      (fun i j => if i = 4 ∧ j = 0 then (100, 200, 200) else (0, 0, 0)) = 4 := by decide
  have hrel : ParkingAnalyzer.relative_position 5 5
      (fun i j => if i = 4 ∧ j = 0 then (100, 200, 200) else (0, 0, 0)) = 4/5 := by
    unfold ParkingAnalyzer.relative_position
    rw [hcnt, hsum]
    norm_num
  have hbp : ParkingAnalyzer.blue_percentage 5 5
      (fun i j => if i = 4 ∧ j = 0 then (100, 200, 200) else (0, 0, 0)) = 1/25 := by
    unfold ParkingAnalyzer.blue_percentage
    rw [hcnt]
    norm_num
  have h := c10_sign_position_independent 5 5
    (fun i j => if i = 4 ∧ j = 0 then (100, 200, 200) else (0, 0, 0))
    (by norm_num) (by rw [hcnt]; norm_num) (by rw [hrel]; norm_num)
  exact ⟨by norm_num, by rw [hcnt]; norm_num, by rw [hrel]; norm_num,
    by rw [hbp]; norm_num, h.1, h.2 (by rw [hbp]; norm_num)⟩

/-! ### Claim C4 -/

/-- Claim C4 (failing input): a "chair" whose bbox area fraction relative
to the detected region is 0.64 — above the higher configured fraction
0.5 — is emitted with severity "Moderate", not "Critical": the source's
`elif relative_size > 0.5` arm (labelled Critical) is shadowed by the
preceding `if relative_size > 0.3` arm.  The high-risk confidence nudge
(0.65 + 0.05) is visible in the emitted confidence. -/
theorem c4_pathway_shadowed_critical :
    (PathwayAnalyzer.analyze 100 100
        { class_name := "chair", bbox := (0, 0, 80, 80) }).map
        (fun v => (v.type_, v.severity, v.confidence)) =
      [("Pathway Obstruction", "Moderate", 7/10)] := by
  have hrs : PathwayAnalyzer.relative_size 100 100
      { class_name := "chair", bbox := (0, 0, 80, 80) } = 16/25 := by
    unfold PathwayAnalyzer.relative_size
    norm_num
  have hmem : lowerStr "chair" ∈ PathwayAnalyzer.obstruction_objects := by decide
  have hrisk : lowerStr "chair" ∈ PathwayAnalyzer.high_risk_objects := by decide
  unfold PathwayAnalyzer.analyze
  rw [if_neg (by norm_num), if_pos hmem]
  unfold PathwayAnalyzer.check_obstruction
  rw [hrs, if_pos hrisk]
  norm_num [min_def]

theorem analyze_all_from_spec (name : String) (f : Detection → List ViolationResult)
    (dets : List Detection) : ∀ (k : ℕ),
    (BaseAnalyzer.analyze_all_from name f k dets).length = dets.length ∧
    ∀ i (hi : i < dets.length),
      ∃ hi2 : i < (BaseAnalyzer.analyze_all_from name f k dets).length,
        (BaseAnalyzer.analyze_all_from name f k dets).get ⟨i, hi2⟩ =
          ("detection_" ++ toString (k + i),
           { object := (dets.get ⟨i, hi⟩).class_name,
             bbox := (dets.get ⟨i, hi⟩).bbox,
             violations := f (dets.get ⟨i, hi⟩),
             analyzer_type := name,
             detection_index := k + i }) := by
  induction dets with
  | nil =>
    intro k
    exact ⟨rfl, fun i hi => absurd hi (by simp)⟩
  | cons d ds ih =>
    intro k
    constructor
    · simpa [BaseAnalyzer.analyze_all_from] using (ih (k + 1)).1
    · intro i hi
      cases i with
      | zero =>
        refine ⟨by simp [BaseAnalyzer.analyze_all_from], ?_⟩
        simp [BaseAnalyzer.analyze_all_from]
      | succ n =>
        obtain ⟨h2, heq⟩ := (ih (k + 1)).2 n (by simpa using hi)
        refine ⟨by simpa [BaseAnalyzer.analyze_all_from] using h2, ?_⟩
        have hstep : (BaseAnalyzer.analyze_all_from name f k (d :: ds)).get
            ⟨n + 1, by simpa [BaseAnalyzer.analyze_all_from] using h2⟩ =
            (BaseAnalyzer.analyze_all_from name f (k + 1) ds).get ⟨n, h2⟩ := rfl
        rw [hstep, heq]
        have harith : k + 1 + n = k + (n + 1) := by omega
        simp [harith]

/-! ### Claim C9 -/

/-- Claim C9: for N input detections the aggregator's output has exactly
N entries, in input order; the i-th entry is keyed `detection_i` and
carries the i-th detection's label and bounding box unchanged. -/
theorem c9_aggregator (name : String) (f : Detection → List ViolationResult)
    (detections : List Detection) :
    (BaseAnalyzer.analyze_all_detections name f detections).length = detections.length ∧
    ∀ i (hi : i < detections.length),
      ∃ hi2 : i < (BaseAnalyzer.analyze_all_detections name f detections).length,
        ((BaseAnalyzer.analyze_all_detections name f detections).get ⟨i, hi2⟩).1
            = "detection_" ++ toString i ∧
        ((BaseAnalyzer.analyze_all_detections name f detections).get ⟨i, hi2⟩).2.object
            = (detections.get ⟨i, hi⟩).class_name ∧
        ((BaseAnalyzer.analyze_all_detections name f detections).get ⟨i, hi2⟩).2.bbox
            = (detections.get ⟨i, hi⟩).bbox ∧
        ((BaseAnalyzer.analyze_all_detections name f detections).get ⟨i, hi2⟩).2.detection_index
            = i := by
  have h := analyze_all_from_spec name f detections 0
  refine ⟨h.1, ?_⟩
  intro i hi
  obtain ⟨h2, heq⟩ := h.2 i hi
  have heq2 : (BaseAnalyzer.analyze_all_detections name f detections).get ⟨i, h2⟩ =
      ("detection_" ++ toString (0 + i),
       { object := (detections.get ⟨i, hi⟩).class_name,
         bbox := (detections.get ⟨i, hi⟩).bbox,
         violations := f (detections.get ⟨i, hi⟩),
         analyzer_type := name,
         detection_index := 0 + i }) := heq
  refine ⟨h2, ?_, ?_, ?_, ?_⟩ <;> rw [heq2] <;> simp

/-- Witness for C9 on a concrete two-detection batch. -/
theorem c9_aggregator_witness :
    (BaseAnalyzer.analyze_all_detections "rule_based_cv" (fun _ => [])
        [{ class_name := "door", bbox := (1, 2, 3, 4) },
         { class_name := "car", bbox := (5, 6, 7, 8) }]).length = 2 ∧
    ∃ h2 : 1 < (BaseAnalyzer.analyze_all_detections "rule_based_cv" (fun _ => [])
        [{ class_name := "door", bbox := (1, 2, 3, 4) },
         { class_name := "car", bbox := (5, 6, 7, 8) }]).length,
      ((BaseAnalyzer.analyze_all_detections "rule_based_cv" (fun _ => [])
        [{ class_name := "door", bbox := (1, 2, 3, 4) },
         { class_name := "car", bbox := (5, 6, 7, 8) }]).get ⟨1, h2⟩).1
          = "detection_" ++ toString 1 ∧
      ((BaseAnalyzer.analyze_all_detections "rule_based_cv" (fun _ => [])
        [{ class_name := "door", bbox := (1, 2, 3, 4) },
         { class_name := "car", bbox := (5, 6, 7, 8) }]).get ⟨1, h2⟩).2.object = "car" ∧
      ((BaseAnalyzer.analyze_all_detections "rule_based_cv" (fun _ => [])
        [{ class_name := "door", bbox := (1, 2, 3, 4) },
         { class_name := "car", bbox := (5, 6, 7, 8) }]).get ⟨1, h2⟩).2.bbox = (5, 6, 7, 8) := by
  have h := c9_aggregator "rule_based_cv" (fun _ => [])
    [{ class_name := "door", bbox := (1, 2, 3, 4) },
     { class_name := "car", bbox := (5, 6, 7, 8) }]
  refine ⟨h.1, ?_⟩
  obtain ⟨h2, hkey, hobj, hbox, -⟩ := h.2 1 (by norm_num)
  exact ⟨h2, hkey, hobj.trans rfl, hbox.trans rfl⟩

theorem check_width_ok {height width : ℕ} {v : ViolationResult}
    (h : DoorAnalyzer.check_width height width = some v) : resultOk v := by
  simp only [DoorAnalyzer.check_width] at h
  set r := if 0 < width then (height : ℚ) / width else 0 with hr
  split at h
  · cases h; exact ⟨Or.inl rfl, by norm_num, by norm_num⟩
  · split at h
    · cases h; exact ⟨Or.inl rfl, by norm_num, by norm_num⟩
    · cases h

theorem edge_density_nonneg (height width : ℕ) (e : ℕ → ℕ → Bool) :
    0 ≤ DoorAnalyzer.edge_density height width e := by
  simp only [DoorAnalyzer.edge_density]
  split
  · positivity
  · norm_num

theorem check_threshold_ok {height width : ℕ} {e : ℕ → ℕ → Bool} {v : ViolationResult}
    (h : DoorAnalyzer.check_threshold height width e = some v) : resultOk v := by
  have hd := edge_density_nonneg height width e
  simp only [DoorAnalyzer.check_threshold] at h
  split at h
  · cases h
    refine ⟨Or.inr (Or.inl rfl), le_min (by linarith) (by norm_num), ?_⟩
    exact (min_le_right _ _).trans (by norm_num)
  · cases h

theorem check_hardware_ok {height width : ℕ} {contours : List Contour}
    {v : ViolationResult}
    (h : DoorAnalyzer.check_hardware height width contours = some v) : resultOk v := by
  simp only [DoorAnalyzer.check_hardware] at h
  split at h
  · cases h; exact ⟨Or.inr (Or.inr rfl), by norm_num, by norm_num⟩
  · cases h

theorem check_signage_ok {height width : ℕ} {pix : ℕ → ℕ → ℕ × ℕ × ℕ}
    {v : ViolationResult}
    (h : ParkingAnalyzer.check_signage height width pix = some v) : resultOk v := by
  simp only [ParkingAnalyzer.check_signage] at h
  split at h
  · cases h; exact ⟨Or.inl rfl, by norm_num, by norm_num⟩
  · split at h
    · cases h; exact ⟨Or.inl rfl, by norm_num, by norm_num⟩
    · cases h

theorem check_sign_position_ok {height width : ℕ} {pix : ℕ → ℕ → ℕ × ℕ × ℕ}
    {v : ViolationResult}
    (h : ParkingAnalyzer.check_sign_position height width pix = some v) : resultOk v := by
  simp only [ParkingAnalyzer.check_sign_position] at h
  split at h
  · split at h
    · cases h; exact ⟨Or.inr (Or.inl rfl), by norm_num, by norm_num⟩
    · cases h
  · cases h

theorem check_obstruction_ok (height width : ℕ) (det : Detection) :
    resultOk (PathwayAnalyzer.check_obstruction height width det) := by
  unfold PathwayAnalyzer.check_obstruction resultOk severityOk
  dsimp only
  refine ⟨?_, ?_, ?_⟩
  · split
    · exact Or.inr (Or.inl rfl)
    · split
      · exact Or.inl rfl
      · exact Or.inr (Or.inl rfl)
  · refine le_min ?_ (by norm_num)
    split
    · split <;> norm_num
    · split
      · split <;> norm_num
      · split <;> norm_num
  · exact (min_le_right _ _).trans (by norm_num)

theorem check_slope_ok {lines : Option (List Line)} {v : ViolationResult}
    (h : RampAnalyzer.check_slope lines = some v) : resultOk v := by
  cases lines with
  | none => exact Option.noConfusion h
  | some ls =>
    simp only [RampAnalyzer.check_slope] at h
    split at h
    · cases h
    · split at h
      · cases h
      · split at h
        · cases h; exact ⟨Or.inl rfl, by norm_num, by norm_num⟩
        · split at h
          · cases h; exact ⟨Or.inr (Or.inl rfl), by norm_num, by norm_num⟩
          · cases h

theorem check_handrails_ok {width : ℕ} {lines : Option (List Line)}
    {v : ViolationResult}
    (h : RampAnalyzer.check_handrails width lines = some v) : resultOk v := by
  cases lines with
  | none =>
    simp only [RampAnalyzer.check_handrails] at h
    cases h; exact ⟨Or.inr (Or.inl rfl), by norm_num, by norm_num⟩
  | some ls =>
    simp only [RampAnalyzer.check_handrails] at h
    split at h
    · cases h; exact ⟨Or.inr (Or.inl rfl), by norm_num, by norm_num⟩
    · cases h

theorem check_contrast_ok {height width : ℕ} {l : ℕ → ℕ → ℕ} {v : ViolationResult}
    (h : SignageAnalyzer.check_contrast height width l = some v) : resultOk v := by
  simp only [SignageAnalyzer.check_contrast] at h
  split at h
  · cases h; exact ⟨Or.inl rfl, by norm_num, by norm_num⟩
  · split at h
    · cases h; exact ⟨Or.inr (Or.inl rfl), by norm_num, by norm_num⟩
    · cases h

theorem check_tactile_features_ok {height width : ℕ} {stdOf : ℕ → ℕ → ℚ}
    {v : ViolationResult}
    (h : SignageAnalyzer.check_tactile_features height width stdOf = some v) :
    resultOk v := by
  simp only [SignageAnalyzer.check_tactile_features] at h
  split at h
  · cases h
  · split at h
    · cases h; exact ⟨Or.inr (Or.inr rfl), by norm_num, by norm_num⟩
    · cases h

/-! ### Claim C1 -/

/-- Claim C1 (counterexample to the claim as stated): a response whose
violation entry carries severity "Catastrophic" and confidence 1.5 is
converted by `_parse_response` into a record violating both halves of
the invariant — the raw values pass through unvalidated. -/
theorem c1_invariant_counterexample :
    ∃ v ∈ ClaudeAPIAnalyzer.parse_response
        [("violations", Json.arr [Json.obj
            [("severity", Json.str "Catastrophic"),
             ("confidence", Json.num (3/2))]])],
      ¬ claudeResultOk v ∧ v.severity = Json.str "Catastrophic" ∧
        v.confidence = Json.num (3/2) := by
  refine ⟨{ type_ := Json.str "Unknown", severity := Json.str "Catastrophic",
            ada_code := Json.str "N/A", confidence := Json.num (3/2),
            detection_method := "claude_api" }, List.Mem.head _, ?_, rfl, rfl⟩
  rintro ⟨hs, -⟩
  rcases hs with h | h | h <;> (injection h with h; simp at h)

theorem parse_response_ok {response : List (String × Json)}
    {v : ClaudeAPIAnalyzer.ClaudeViolation}
    (hv : v ∈ ClaudeAPIAnalyzer.parse_response response)
    (hok : ∀ e ∈ ClaudeAPIAnalyzer.violations_data response, entryOk e) :
    claudeResultOk v := by
  obtain ⟨e, he, hpe⟩ := List.mem_filterMap.mp hv
  have hoke := hok e he
  cases e with
  | null => exact Option.noConfusion hpe
  | bool b => exact Option.noConfusion hpe
  | num q => exact Option.noConfusion hpe
  | str s => exact Option.noConfusion hpe
  | arr xs => exact Option.noConfusion hpe
  | obj fields =>
    simp only [ClaudeAPIAnalyzer.parseEntry] at hpe
    cases hpe
    obtain ⟨hsev, hconf⟩ := hoke fields rfl
    constructor
    · show ClaudeAPIAnalyzer.getD fields "severity" (Json.str "Minor") = _ ∨ _
      rcases hsv : fields.lookup "severity" with - | s
      · refine Or.inr (Or.inr ?_)
        simp only [ClaudeAPIAnalyzer.getD, hsv]
      · simp only [ClaudeAPIAnalyzer.getD, hsv]
        exact hsev s hsv
    · show ∃ q : ℚ, ClaudeAPIAnalyzer.getD fields "confidence" (Json.num (1/2)) = _ ∧ _
      rcases hcf : fields.lookup "confidence" with - | c
      · exact ⟨1/2, by simp only [ClaudeAPIAnalyzer.getD, hcf], by norm_num, by norm_num⟩
      · obtain ⟨q, hq, h0, h1⟩ := hconf c hcf
        exact ⟨q, by simp only [ClaudeAPIAnalyzer.getD, hcf]; exact hq, h0, h1⟩

/-- Claim C1 (amended): every record emitted by any of the five
rule-based category analyzers, on any input, has severity in the
three-value enum and confidence in [0, 1]; a record built by the
model-backed analyzer's `_parse_response` satisfies the same invariant
whenever the response's violation entries themselves do (absent fields
default to "Minor" / 0.5, which satisfy it) — but not in general, since
the raw response values pass through unvalidated. -/
theorem c1_record_invariant :
    (∀ (height width : ℕ) (e : ℕ → ℕ → Bool) (contours : List Contour) v,
       v ∈ DoorAnalyzer.analyze height width e contours → resultOk v) ∧
    (∀ (height width : ℕ) (pix : ℕ → ℕ → ℕ × ℕ × ℕ) v,
       v ∈ ParkingAnalyzer.analyze height width pix → resultOk v) ∧
    (∀ (height width : ℕ) (det : Detection) v,
       v ∈ PathwayAnalyzer.analyze height width det → resultOk v) ∧
    (∀ (height width : ℕ) (sl hl : Option (List Line)) v,
       v ∈ RampAnalyzer.analyze height width sl hl → resultOk v) ∧
    (∀ (height width : ℕ) (l : ℕ → ℕ → ℕ) (stdOf : ℕ → ℕ → ℚ) v,
       v ∈ SignageAnalyzer.analyze height width l stdOf → resultOk v) ∧
    (∀ (response : List (String × Json)) v,
       v ∈ ClaudeAPIAnalyzer.parse_response response →
       (∀ e ∈ ClaudeAPIAnalyzer.violations_data response, entryOk e) →
       claudeResultOk v) := by
  refine ⟨?_, ?_, ?_, ?_, ?_, ?_⟩
  · intro height width e contours v hv
    unfold DoorAnalyzer.analyze at hv
    split at hv
    · cases hv
    · simp only [List.mem_append, Option.mem_toList, Option.mem_def] at hv
      rcases hv with (hv | hv) | hv
      · exact check_width_ok hv
      · exact check_threshold_ok hv
      · exact check_hardware_ok hv
  · intro height width pix v hv
    unfold ParkingAnalyzer.analyze at hv
    split at hv
    · cases hv
    · simp only [List.mem_append, Option.mem_toList, Option.mem_def] at hv
      rcases hv with hv | hv
      · exact check_signage_ok hv
      · exact check_sign_position_ok hv
  · intro height width det v hv
    unfold PathwayAnalyzer.analyze at hv
    split at hv
    · cases hv
    · split at hv
      · rw [List.mem_singleton] at hv
        rw [hv]
        exact check_obstruction_ok height width det
      · cases hv
  · intro height width sl hl v hv
    unfold RampAnalyzer.analyze at hv
    split at hv
    · cases hv
    · simp only [List.mem_append, Option.mem_toList, Option.mem_def] at hv
      rcases hv with hv | hv
      · exact check_slope_ok hv
      · exact check_handrails_ok hv
  · intro height width l stdOf v hv
    unfold SignageAnalyzer.analyze at hv
    split at hv
    · cases hv
    · simp only [List.mem_append, Option.mem_toList, Option.mem_def] at hv
      rcases hv with hv | hv
      · exact check_contrast_ok hv
      · exact check_tactile_features_ok hv
  · intro response v hv hok
    exact parse_response_ok hv hok

/-- Witness for C1 at concrete inputs: the record the pathway analyzer
emits for a chair in a 100 x 100 region, and a record built from a
well-formed model response. -/
theorem c1_record_invariant_witness :
    resultOk (PathwayAnalyzer.check_obstruction 100 100
      { class_name := "chair", bbox := (0, 0, 80, 80) }) ∧
    claudeResultOk { type_ := Json.str "Unknown", severity := Json.str "Critical",
                     ada_code := Json.str "N/A", confidence := Json.num (7/10),
                     detection_method := "claude_api" } := by
  constructor
  · have hmem : PathwayAnalyzer.check_obstruction 100 100
        { class_name := "chair", bbox := (0, 0, 80, 80) } ∈
        PathwayAnalyzer.analyze 100 100
          { class_name := "chair", bbox := (0, 0, 80, 80) } := by
      have heq : PathwayAnalyzer.analyze 100 100
          { class_name := "chair", bbox := (0, 0, 80, 80) } =
          [PathwayAnalyzer.check_obstruction 100 100
            { class_name := "chair", bbox := (0, 0, 80, 80) }] := by
        unfold PathwayAnalyzer.analyze
        rw [if_neg (by norm_num), if_pos (by decide)]
      rw [heq]
      exact List.Mem.head _
    exact c1_record_invariant.2.2.1 100 100
      { class_name := "chair", bbox := (0, 0, 80, 80) } _ hmem
  · refine c1_record_invariant.2.2.2.2.2
      [("violations", Json.arr [Json.obj
          [("severity", Json.str "Critical"), ("confidence", Json.num (7/10))]])]
      _ (List.Mem.head _) ?_
    intro e he fields hf
    have he' : e ∈ [Json.obj [("severity", Json.str "Critical"),
        ("confidence", Json.num (7/10))]] := he
    rw [List.mem_singleton] at he'
    subst he'
    injection hf with hf
    subst hf
    constructor
    · intro s hs
      rw [show ([("severity", Json.str "Critical"),
          ("confidence", Json.num (7/10))].lookup "severity") =
          some (Json.str "Critical") from rfl] at hs
      injection hs with hs
      exact Or.inl hs.symm
    · intro c hc
      rw [show ([("severity", Json.str "Critical"),
          ("confidence", Json.num (7/10))].lookup "confidence") =
          some (Json.num (7/10)) from rfl] at hc
      injection hc with hc
      exact ⟨7/10, hc.symm, by norm_num, by norm_num⟩

/-! ### Claim C8 -/

/-- Claim C8 (amended): the extraction strategies run in source order —
(1) a response the parser accepts whole is returned as parsed; (2)
otherwise, when "```json" occurs, the object parsed from exactly the
(whitespace-stripped) fenced span is returned; (3) when every parse
attempt fails, the fallback object has an empty violations list and its
notes field holds the first 200 characters of the response — non-empty
exactly when the response text is non-empty. -/
theorem c8_extract_json :
    (∀ (loads : String → Option Json) (text : String) (j : Json),
       loads text = some j → ClaudeAPIAnalyzer.extract_json loads text = j) ∧
    (∀ (loads : String → Option Json) (text : String) (j : Json),
       loads text = none →
       0 ≤ PyStr.pyFind text "```json" →
       loads (PyStr.pyStrip (PyStr.pySlice text
           (((PyStr.pyFind text "```json").toNat + 7 : ℕ) : ℤ)
           (PyStr.pyFindFrom text "```" ((PyStr.pyFind text "```json").toNat + 7))))
         = some j →
       ClaudeAPIAnalyzer.extract_json loads text = j) ∧
    (∀ (loads : String → Option Json) (text : String),
       (∀ s, loads s = none) →
       ClaudeAPIAnalyzer.extract_json loads text =
         Json.obj [("violations", Json.arr []),
                   ("overall_assessment", Json.str "Parse error"),
                   ("notes", Json.str (PyStr.pyTake 200 text))] ∧
       (PyStr.pyTake 200 text = "" ↔ text = "")) := by
  refine ⟨?_, ?_, ?_⟩
  · intro loads text j h
    simp only [ClaudeAPIAnalyzer.extract_json, h]
  · intro loads text j h0 hfence hparse
    simp only [ClaudeAPIAnalyzer.extract_json, h0]
    rw [if_pos hfence, hparse]
  · intro loads text hall
    constructor
    · simp only [ClaudeAPIAnalyzer.extract_json, hall]
    · obtain ⟨l⟩ := text
      show String.mk (l.take 200) = String.mk [] ↔ String.mk l = String.mk []
      constructor
      · intro h
        have hd : l.take 200 = [] := congrArg String.data h
        cases l with
        | nil => rfl
        | cons c cs => simp at hd
      · intro h
        have hd : l = [] := congrArg String.data h
        subst hd
        rfl

/-- Claim C8 (counterexample to the claim as stated): on the empty
response text every strategy fails (Python's `json.loads` raises on the
empty string, the only input the trace queries) and the fallback notes
field is the empty string — not a non-empty diagnostic. -/
theorem c8_extract_json_counterexample :
    ClaudeAPIAnalyzer.extract_json (fun _ => none) "" =
      Json.obj [("violations", Json.arr []),
                ("overall_assessment", Json.str "Parse error"),
                ("notes", Json.str "")] ∧ ("" : String).data = [] := by
  exact ⟨rfl, rfl⟩

/-- Witness for C8: a fenced response returning the fenced object, and
an unparseable non-empty response returning the fallback. -/
theorem c8_extract_json_witness :
    ClaudeAPIAnalyzer.extract_json loadsDemo "```json\n\x7b\x7d\n```" = Json.obj [] ∧
    (ClaudeAPIAnalyzer.extract_json (fun _ => none) "abc" =
       Json.obj [("violations", Json.arr []),
                 ("overall_assessment", Json.str "Parse error"),
                 ("notes", Json.str (PyStr.pyTake 200 "abc"))] ∧
     (PyStr.pyTake 200 "abc" = "" ↔ ("abc" : String) = "")) := by
  constructor
  · refine c8_extract_json.2.1 loadsDemo "```json\n\x7b\x7d\n```" (Json.obj []) ?_ ?_ ?_
    · show (if ("```json\n\x7b\x7d\n```" : String) = "\x7b\x7d"
          then some (Json.obj []) else none) = none
      rw [if_neg (by decide)]
    · decide
    · rw [show PyStr.pyStrip (PyStr.pySlice "```json\n\x7b\x7d\n```"
          (((PyStr.pyFind "```json\n\x7b\x7d\n```" "```json").toNat + 7 : ℕ) : ℤ)
          (PyStr.pyFindFrom "```json\n\x7b\x7d\n```" "```"
            ((PyStr.pyFind "```json\n\x7b\x7d\n```" "```json").toNat + 7)))
          = "\x7b\x7d" from by decide]
      show (if ("\x7b\x7d" : String) = "\x7b\x7d"
          then some (Json.obj []) else none) = some (Json.obj [])
      rw [if_pos rfl]
  · exact c8_extract_json.2.2 (fun _ => none) "abc" (fun _ => rfl)

/-! ### Ramp-angle facts -/

theorem lineAngle_eq (x1 y1 x2 y2 : ℤ) :
    RampAnalyzer.lineAngle ⟨x1, y1, x2, y2⟩ =
      |Real.arctan (((y2 - y1 : ℤ) : ℝ) / ((x2 - x1 : ℤ) : ℝ)) * (180 / Real.pi)| := rfl

theorem arctan_pos' {x : ℝ} (hx : 0 < x) : 0 < Real.arctan x := by
  have h := Real.arctan_strictMono hx
  rwa [Real.arctan_zero] at h

theorem arctan_lt_of_pos {x : ℝ} (h0 : 0 < x) (hx : x < Real.pi / 2) :
    Real.arctan x < x := by
  have h1 : x < Real.tan x := Real.lt_tan h0 hx
  have h2 : Real.arctan x < Real.arctan (Real.tan x) := Real.arctan_strictMono h1
  rwa [Real.arctan_tan (by linarith [Real.pi_pos]) hx] at h2

theorem tan_small_lt {c : ℝ} (h0 : 0 < c) (hc : c < 1/10) : Real.tan c < 1/6 := by
  have hsin : Real.sin c < c := Real.sin_lt h0
  have hcos : 1 - c^2/2 < Real.cos c := Real.one_sub_sq_div_two_lt_cos h0.ne'
  have hcospos : 0 < Real.cos c := by nlinarith
  rw [Real.tan_eq_sin_div_cos, div_lt_iff₀ hcospos]
  nlinarith

theorem arctan_one_sixth_lt_self : Real.arctan (1/6) < 1/6 :=
  arctan_lt_of_pos (by norm_num) (by nlinarith [Real.pi_gt_three])

theorem arctan_one_sixth_gt : 119 * Real.pi / 4500 < Real.arctan (1/6) := by
  have hπ3 : (3:ℝ) < Real.pi := Real.pi_gt_three
  have hπ' : Real.pi < 3.15 := Real.pi_lt_d2
  have h0 : 0 < 119 * Real.pi / 4500 := by positivity
  have hsmall : 119 * Real.pi / 4500 < 1/10 := by nlinarith
  have htan : Real.tan (119 * Real.pi / 4500) < 1/6 := tan_small_lt h0 hsmall
  have h := Real.arctan_strictMono htan
  rwa [Real.arctan_tan (by nlinarith) (by nlinarith)] at h

theorem lineAngle_16 : RampAnalyzer.lineAngle ⟨0, 1, 6, 0⟩ =
    Real.arctan (1/6) * (180 / Real.pi) := by
  rw [lineAngle_eq]
  have h1 : (((0:ℤ) - 1 : ℤ) : ℝ) / (((6:ℤ) - 0 : ℤ) : ℝ) = -(1/6) := by
    push_cast
    norm_num
  rw [h1, Real.arctan_neg, neg_mul, abs_neg, abs_of_nonneg]
  exact mul_nonneg (le_of_lt (arctan_pos' (by norm_num))) (by positivity)

theorem lineAngle_16_gt : (119/25 : ℝ) < RampAnalyzer.lineAngle ⟨0, 1, 6, 0⟩ := by
  rw [lineAngle_16]
  have key : (119/25 : ℝ) = (119 * Real.pi / 4500) * (180 / Real.pi) := by
    have hπ : Real.pi ≠ 0 := Real.pi_ne_zero
    field_simp
    ring
  rw [key]
  exact mul_lt_mul_of_pos_right arctan_one_sixth_gt (by positivity)

theorem lineAngle_16_lt : RampAnalyzer.lineAngle ⟨0, 1, 6, 0⟩ < 10 := by
  rw [lineAngle_16]
  have hπ3 : (3:ℝ) < Real.pi := Real.pi_gt_three
  have h6 : Real.arctan (1/6) < Real.pi / 18 :=
    lt_of_lt_of_le arctan_one_sixth_lt_self (by linarith)
  have key : (10 : ℝ) = (Real.pi / 18) * (180 / Real.pi) := by
    have hπ : Real.pi ≠ 0 := Real.pi_ne_zero
    field_simp
    ring
  rw [key]
  exact mul_lt_mul_of_pos_right h6 (by positivity)

theorem lineAngle_45 : RampAnalyzer.lineAngle ⟨0, 5, 5, 0⟩ = 45 := by
  rw [lineAngle_eq]
  have h1 : (((0:ℤ) - 5 : ℤ) : ℝ) / (((5:ℤ) - 0 : ℤ) : ℝ) = -1 := by
    push_cast
    norm_num
  have hπ : Real.pi ≠ 0 := Real.pi_ne_zero
  rw [h1, Real.arctan_neg, Real.arctan_one, neg_mul, abs_neg,
    abs_of_nonneg (by positivity)]
  field_simp
  ring

theorem foldl_max_mem {α : Type} [LinearOrder α] (a : α) (l : List α) :
    l.foldl max a ∈ a :: l := by
  induction l generalizing a with
  | nil => simp
  | cons b t ih =>
    simp only [List.foldl_cons]
    have hm := ih (max a b)
    rcases List.mem_cons.mp hm with h' | h'
    · rcases max_choice a b with h | h
      · rw [h', h]
        exact List.mem_cons.mpr (Or.inl rfl)
      · rw [h', h]
        exact List.mem_cons.mpr (Or.inr (List.mem_cons.mpr (Or.inl rfl)))
    · exact List.mem_cons.mpr (Or.inr (List.mem_cons.mpr (Or.inr h')))

theorem qualifyingAngles_mem_band {lines : List Line} {a : ℝ}
    (ha : a ∈ RampAnalyzer.qualifyingAngles lines) : 10 < a ∧ a < 80 := by
  unfold RampAnalyzer.qualifyingAngles at ha
  obtain ⟨l, _, hfl⟩ := List.mem_filterMap.mp ha
  split at hfl
  · split at hfl
    · rename_i hband
      cases hfl
      exact hband
    · cases hfl
  · cases hfl

theorem steepestAngle_mem {lines : List Line}
    (h : ¬ RampAnalyzer.qualifyingAngles lines = []) :
    RampAnalyzer.steepestAngle lines ∈ RampAnalyzer.qualifyingAngles lines := by
  unfold RampAnalyzer.steepestAngle
  rcases hq : RampAnalyzer.qualifyingAngles lines with - | ⟨a, rest⟩
  · exact absurd hq h
  · exact foldl_max_mem a rest

theorem steepestAngle_band {lines : List Line}
    (h : ¬ RampAnalyzer.qualifyingAngles lines = []) :
    10 < RampAnalyzer.steepestAngle lines ∧ RampAnalyzer.steepestAngle lines < 80 :=
  qualifyingAngles_mem_band (steepestAngle_mem h)

theorem qualifyingAngles_single {l : Line} (hdx : l.x2 - l.x1 ≠ 0)
    (h10 : 10 < RampAnalyzer.lineAngle l) (h80 : RampAnalyzer.lineAngle l < 80) :
    RampAnalyzer.qualifyingAngles [l] = [RampAnalyzer.lineAngle l] := by
  unfold RampAnalyzer.qualifyingAngles
  rw [List.filterMap_cons, if_pos hdx, if_pos ⟨h10, h80⟩]
  rfl

theorem steepestAngle_single {l : Line} (hdx : l.x2 - l.x1 ≠ 0)
    (h10 : 10 < RampAnalyzer.lineAngle l) (h80 : RampAnalyzer.lineAngle l < 80) :
    RampAnalyzer.steepestAngle [l] = RampAnalyzer.lineAngle l := by
  unfold RampAnalyzer.steepestAngle
  rw [qualifyingAngles_single hdx h10 h80]
  rfl

theorem check_slope_some_of_qualifying {ls : List Line}
    (h : ¬ RampAnalyzer.qualifyingAngles ls = []) :
    RampAnalyzer.check_slope (some ls) = some
      { type_ := "Ramp Slope", severity := "Critical", ada_code := "405.2",
        confidence := 3/5, detection_method := "rule_based_cv",
        measurements :=
          [("detected_angle_degrees",
              MeasVal.num (RampAnalyzer.roundR 1 (RampAnalyzer.steepestAngle ls))),
           ("max_allowed_angle_degrees", MeasVal.num (119/25)),
           ("max_allowed_ratio", MeasVal.str "1:12"),
           ("max_allowed_percentage", MeasVal.num (833/100))] } := by
  have hband := steepestAngle_band h
  have hls : ¬ ls.length = 0 := by
    intro h0
    rw [List.length_eq_zero] at h0
    rw [h0] at h
    exact h rfl
  have hq : ¬ (RampAnalyzer.qualifyingAngles ls).length = 0 := by
    intro h0
    rw [List.length_eq_zero] at h0
    exact h h0
  have hmax : RampAnalyzer.max_slope_degrees < RampAnalyzer.steepestAngle ls := by
    unfold RampAnalyzer.max_slope_degrees
    linarith [hband.1]
  simp only [RampAnalyzer.check_slope]
  rw [if_neg hls, if_neg hq, if_pos hmax]

theorem check_handrails_type {width : ℕ} {lines : Option (List Line)}
    {v : ViolationResult}
    (h : RampAnalyzer.check_handrails width lines = some v) :
    v.type_ = "Ramp Handrails" := by
  cases lines with
  | none =>
    simp only [RampAnalyzer.check_handrails] at h
    cases h
    rfl
  | some ls =>
    simp only [RampAnalyzer.check_handrails] at h
    split at h
    · cases h
      rfl
    · cases h

theorem check_slope_critical {lines : Option (List Line)} {v : ViolationResult}
    (h : RampAnalyzer.check_slope lines = some v) :
    v.type_ = "Ramp Slope" ∧ v.severity = "Critical" ∧
      (∃ ls, lines = some ls ∧
        RampAnalyzer.max_slope_degrees < RampAnalyzer.steepestAngle ls ∧
        RampAnalyzer.warning_slope_degrees < RampAnalyzer.steepestAngle ls) := by
  cases lines with
  | none => exact Option.noConfusion h
  | some ls =>
    simp only [RampAnalyzer.check_slope] at h
    split at h
    · cases h
    · split at h
      · cases h
      · rename_i hq
        have hband := steepestAngle_band (by
          intro h0
          rw [h0] at hq
          exact hq rfl)
        have hmax : RampAnalyzer.max_slope_degrees < RampAnalyzer.steepestAngle ls := by
          unfold RampAnalyzer.max_slope_degrees
          linarith [hband.1]
        have hwarn : RampAnalyzer.warning_slope_degrees < RampAnalyzer.steepestAngle ls := by
          unfold RampAnalyzer.warning_slope_degrees
          linarith [hband.1]
        rw [if_pos hmax] at h
        cases h
        exact ⟨rfl, rfl, ls, rfl, hmax, hwarn⟩

theorem roundR_abs_sub (a : ℝ) :
    |((RampAnalyzer.roundR 1 a : ℚ) : ℝ) - a| ≤ 1/20 := by
  have hcast : ((RampAnalyzer.roundR 1 a : ℚ) : ℝ) = (round (a * 10) : ℤ) / 10 := by
    unfold RampAnalyzer.roundR
    push_cast
    norm_num
  rw [hcast]
  have hr := abs_sub_round (a * 10)
  have hrw : ((round (a * 10) : ℤ) : ℝ) / 10 - a = ((round (a * 10) : ℤ) - a * 10) / 10 := by
    ring
  rw [hrw, abs_div]
  rw [abs_sub_comm] at hr
  rw [show |(10:ℝ)| = 10 from abs_of_nonneg (by norm_num)]
  linarith

/-! ### Claim C5 -/

/-- Claim C5 (amended): the slope check compares the steepest qualifying
angle against both the ADA maximum and the lower warning threshold and
emits a "Ramp Slope" finding whenever a qualifying angle exists; but
because qualifying angles are restricted to the (10°, 80°) band, the
steepest always exceeds both thresholds, so every emitted finding is
Critical — the Moderate arm is unreachable and no input region yields a
Moderate "Ramp Slope" finding. -/
theorem c5_ramp_slope_critical :
    (∀ (lines : Option (List Line)) (v : ViolationResult),
       RampAnalyzer.check_slope lines = some v →
       v.type_ = "Ramp Slope" ∧ v.severity = "Critical" ∧
       ∃ ls, lines = some ls ∧
         RampAnalyzer.max_slope_degrees < RampAnalyzer.steepestAngle ls ∧
         RampAnalyzer.warning_slope_degrees < RampAnalyzer.steepestAngle ls) ∧
    (∀ ls : List Line, ¬ RampAnalyzer.qualifyingAngles ls = [] →
       ∃ v, RampAnalyzer.check_slope (some ls) = some v) := by
  constructor
  · intro lines v h
    exact check_slope_critical h
  · intro ls h
    exact ⟨_, check_slope_some_of_qualifying h⟩

/-- Claim C5 (counterexample to the claim as stated): no input at all
makes the ramp analyzer emit a Moderate "Ramp Slope" finding. -/
theorem c5_no_moderate_counterexample :
    ¬ ∃ (height width : ℕ) (sl hl : Option (List Line)) (v : ViolationResult),
        v ∈ RampAnalyzer.analyze height width sl hl ∧
        v.type_ = "Ramp Slope" ∧ v.severity = "Moderate" := by
  rintro ⟨height, width, sl, hl, v, hv, ht, hs⟩
  unfold RampAnalyzer.analyze at hv
  split at hv
  · cases hv
  · simp only [List.mem_append, Option.mem_toList, Option.mem_def] at hv
    rcases hv with hv | hv
    · obtain ⟨-, hcrit, -⟩ := check_slope_critical hv
      rw [hcrit] at hs
      exact absurd hs (by decide)
    · rw [check_handrails_type hv] at ht
      exact absurd ht (by decide)

/-- Witness for C5: a single 45° diagonal produces a (necessarily
Critical) "Ramp Slope" finding. -/
theorem c5_ramp_slope_critical_witness :
    ¬ RampAnalyzer.qualifyingAngles [⟨0, 5, 5, 0⟩] = [] ∧
    ∃ v, RampAnalyzer.check_slope (some [⟨0, 5, 5, 0⟩]) = some v ∧
      v.type_ = "Ramp Slope" ∧ v.severity = "Critical" := by
  have hq : RampAnalyzer.qualifyingAngles [⟨0, 5, 5, 0⟩] =
      [RampAnalyzer.lineAngle ⟨0, 5, 5, 0⟩] :=
    qualifyingAngles_single (by decide)
      (by rw [lineAngle_45]; norm_num) (by rw [lineAngle_45]; norm_num)
  have hne : ¬ RampAnalyzer.qualifyingAngles [⟨0, 5, 5, 0⟩] = [] := by
    rw [hq]
    simp
  obtain ⟨v, hv⟩ := c5_ramp_slope_critical.2 [⟨0, 5, 5, 0⟩] hne
  obtain ⟨ht, hs, -⟩ := c5_ramp_slope_critical.1 (some [⟨0, 5, 5, 0⟩]) v hv
  exact ⟨hne, v, hv, ht, hs⟩

/-! ### Claim C3 -/

/-- Claim C3 (amended): for every region containing a single diagonal
line drawn from its bottom-left to its top-right whose angle lies in the
analyzer's qualifying band — strictly between 10° and 80°, in particular
above 4.76° — the ramp analyzer yields a Critical "Ramp Slope" violation
whose `detected_angle_degrees` measurement is the drawn line's true angle
rounded to one decimal, hence within 0.05° of it.  Angles in
(4.76°, 10°] are excluded by the band filter and yield no slope
violation (see the counterexample). -/
theorem c3_ramp_slope_angle (height width : ℕ) (hh : 0 < height) (hw : 0 < width)
    (hr : Option (List Line))
    (h10 : 10 < RampAnalyzer.lineAngle ⟨0, (height : ℤ) - 1, (width : ℤ) - 1, 0⟩)
    (h80 : RampAnalyzer.lineAngle ⟨0, (height : ℤ) - 1, (width : ℤ) - 1, 0⟩ < 80)
    (hdx : ((width : ℤ) - 1) - 0 ≠ 0) :
    ∃ v ∈ RampAnalyzer.analyze height width
        (some [⟨0, (height : ℤ) - 1, (width : ℤ) - 1, 0⟩]) hr,
      v.type_ = "Ramp Slope" ∧ v.severity = "Critical" ∧
      v.measurements.lookup "detected_angle_degrees" =
        some (MeasVal.num (RampAnalyzer.roundR 1
          (RampAnalyzer.lineAngle ⟨0, (height : ℤ) - 1, (width : ℤ) - 1, 0⟩))) ∧
      |((RampAnalyzer.roundR 1
          (RampAnalyzer.lineAngle ⟨0, (height : ℤ) - 1, (width : ℤ) - 1, 0⟩) : ℚ) : ℝ) -
        RampAnalyzer.lineAngle ⟨0, (height : ℤ) - 1, (width : ℤ) - 1, 0⟩| ≤ 1/20 := by
  set l : Line := ⟨0, (height : ℤ) - 1, (width : ℤ) - 1, 0⟩ with hl
  have hdx' : l.x2 - l.x1 ≠ 0 := hdx
  have hq : RampAnalyzer.qualifyingAngles [l] = [RampAnalyzer.lineAngle l] :=
    qualifyingAngles_single hdx' h10 h80
  have hne : ¬ RampAnalyzer.qualifyingAngles [l] = [] := by
    rw [hq]
    simp
  have hslope := check_slope_some_of_qualifying hne
  rw [steepestAngle_single hdx' h10 h80] at hslope
  have hsize : ¬ (height * width = 0) := by positivity
  refine ⟨{ type_ := "Ramp Slope", severity := "Critical", ada_code := "405.2",
            confidence := 3/5, detection_method := "rule_based_cv",
            measurements :=
              [("detected_angle_degrees",
                  MeasVal.num (RampAnalyzer.roundR 1 (RampAnalyzer.lineAngle l))),
               ("max_allowed_angle_degrees", MeasVal.num (119/25)),
               ("max_allowed_ratio", MeasVal.str "1:12"),
               ("max_allowed_percentage", MeasVal.num (833/100))] },
      ?_, rfl, rfl, ?_, ?_⟩
  · unfold RampAnalyzer.analyze
    rw [if_neg hsize]
    simp only [List.mem_append, Option.mem_toList, Option.mem_def]
    exact Or.inl hslope
  · rfl
  · exact roundR_abs_sub _

/-- Claim C3 (counterexample to the claim as stated): a 2 x 7 region's
single bottom-left-to-top-right diagonal has angle arctan(1/6) in
degrees, about 9.46° — above 4.76° — yet the (10°, 80°) band filter
discards it, so the analyzer emits no "Ramp Slope" violation, only the
independent handrail finding. -/
theorem c3_band_counterexample :
    (119/25 : ℝ) < RampAnalyzer.lineAngle ⟨0, 1, 6, 0⟩ ∧
    (RampAnalyzer.analyze 2 7 (some [⟨0, 1, 6, 0⟩]) (some [⟨0, 1, 6, 0⟩])).map
      (fun v => v.type_) = ["Ramp Handrails"] := by
  refine ⟨lineAngle_16_gt, ?_⟩
  have hband : ¬ (10 < RampAnalyzer.lineAngle ⟨0, 1, 6, 0⟩ ∧
      RampAnalyzer.lineAngle ⟨0, 1, 6, 0⟩ < 80) := by
    rintro ⟨h10, -⟩
    linarith [lineAngle_16_lt]
  have hq : RampAnalyzer.qualifyingAngles [⟨0, 1, 6, 0⟩] = [] := by
    unfold RampAnalyzer.qualifyingAngles
    rw [List.filterMap_cons,
      if_pos (show (⟨0, 1, 6, 0⟩ : Line).x2 - (⟨0, 1, 6, 0⟩ : Line).x1 ≠ 0 from by decide),
      if_neg hband]
    rfl
  have hslope : RampAnalyzer.check_slope (some [⟨0, 1, 6, 0⟩]) = none := by
    simp only [RampAnalyzer.check_slope]
    rw [if_neg (show ¬ (([⟨0, 1, 6, 0⟩] : List Line).length = 0) from by decide),
      if_pos (show (RampAnalyzer.qualifyingAngles [⟨0, 1, 6, 0⟩]).length = 0 from by
        rw [hq]
        rfl)]
  have hhand : ∃ v, RampAnalyzer.check_handrails 7 (some [⟨0, 1, 6, 0⟩]) = some v ∧
      v.type_ = "Ramp Handrails" := by
    simp only [RampAnalyzer.check_handrails]
    rw [if_pos]
    · exact ⟨_, rfl, rfl⟩
    · left
      rw [List.length_eq_zero, List.filter_eq_nil_iff]
      intro a ha
      rw [List.mem_singleton] at ha
      subst ha
      simp only [decide_eq_true_eq]
      push_cast
      norm_num
  obtain ⟨v, hv, htv⟩ := hhand
  unfold RampAnalyzer.analyze
  rw [if_neg (by norm_num), hslope, hv]
  simp [htv]

/-- Witness for C3 on a 6 x 6 region whose diagonal has angle exactly
45°. -/
theorem c3_ramp_slope_angle_witness :
    ∃ v ∈ RampAnalyzer.analyze 6 6
        (some [⟨0, ((6 : ℕ) : ℤ) - 1, ((6 : ℕ) : ℤ) - 1, 0⟩]) none,
      v.type_ = "Ramp Slope" ∧ v.severity = "Critical" ∧
      v.measurements.lookup "detected_angle_degrees" =
        some (MeasVal.num (RampAnalyzer.roundR 1
          (RampAnalyzer.lineAngle ⟨0, ((6 : ℕ) : ℤ) - 1, ((6 : ℕ) : ℤ) - 1, 0⟩))) ∧
      |((RampAnalyzer.roundR 1
          (RampAnalyzer.lineAngle ⟨0, ((6 : ℕ) : ℤ) - 1, ((6 : ℕ) : ℤ) - 1, 0⟩) : ℚ) : ℝ) -
        RampAnalyzer.lineAngle ⟨0, ((6 : ℕ) : ℤ) - 1, ((6 : ℕ) : ℤ) - 1, 0⟩| ≤ 1/20 := by
  have hline : (⟨0, ((6 : ℕ) : ℤ) - 1, ((6 : ℕ) : ℤ) - 1, 0⟩ : Line) = ⟨0, 5, 5, 0⟩ := by
    simp only [Line.mk.injEq]
    norm_num
  have h45 : RampAnalyzer.lineAngle ⟨0, ((6 : ℕ) : ℤ) - 1, ((6 : ℕ) : ℤ) - 1, 0⟩ = 45 := by
    rw [hline, lineAngle_45]
  exact c3_ramp_slope_angle 6 6 (by norm_num) (by norm_num) none
    (by rw [h45]; norm_num) (by rw [h45]; norm_num) (by norm_num)

end ADA
